import Mathlib

/-!
# PostureLens alerting core: a shallow embedding

This file embeds the signal-processing and alerting core of the PostureLens
browser application (TypeScript) in Lean 4 and proves the frozen claims about
it.

Modelling conventions, used uniformly below:

* JavaScript `number` (IEEE double) is idealized as the real numbers `ℝ`;
  `Math.sqrt` is `Real.sqrt`, `Math.min`/`Math.max` are `min`/`max`,
  `Math.abs` is `|·|`, `Math.round` is `round` (both round half toward `+∞`).
* A JavaScript optional / nullable number (`z?: number`, `number | null`) is
  `Option ℝ`; a `some` value models a present, finite number (the source
  filters with `Number.isFinite` wherever it reads an optional depth).
* The `Number.POSITIVE_INFINITY` sentinel that the source uses as the unit of
  `Math.min` folds is modelled as `none`, combined with `optMin` below; a
  `none` distance compares as "not near", exactly as `Infinity` does in the
  source.
* Class instances with mutable fields become explicit state records; a method
  `m()` mutating `this` and returning `r` becomes a function
  `State → ... → State × r`.  Timestamps (`Date.now()`, milliseconds) are `ℤ`.
* Side effects of the alert engine (flash / toast / tone) are reified as an
  emitted effect list; `console.*` logging is dropped.
-/

namespace PostureLens

/-- Alert variant, `'normal' | 'low-confidence'` in the source. -/
inductive AlertVariant
  | normal
  | lowConfidence
deriving DecidableEq, Repr

/-- A single normalized landmark with optional depth
(`{ x: number; y: number; z?: number }`). -/
structure Landmark where
  x : ℝ
  y : ℝ
  z : Option ℝ := none

/-- `type Rect = { minX: number; minY: number; maxX: number; maxY: number }`. -/
structure Rect where
  minX : ℝ
  minY : ℝ
  maxX : ℝ
  maxY : ℝ

/-- The per-frame observation emitted by the external detector
(`Results` from MediaPipe); a missing region (`?? []` in the source) is the
empty list. -/
structure Results where
  poseLandmarks : List Landmark := []
  leftHandLandmarks : List Landmark := []
  rightHandLandmarks : List Landmark := []
  faceLandmarks : List Landmark := []

/-- `computeBoundingBox` from the proximity module: `null` on an empty list,
otherwise min/max fold starting from `minX = minY = 1`, `maxX = maxY = 0`. -/
def computeBoundingBox (points : List Landmark) : Option Rect :=
  if points.length = 0 then none
  else some (points.foldl
    (fun r p =>
      { minX := min r.minX p.x, minY := min r.minY p.y
        maxX := max r.maxX p.x, maxY := max r.maxY p.y })
    { minX := 1, minY := 1, maxX := 0, maxY := 0 })

/-- `distancePointToRect`: Euclidean distance from a point to an axis-aligned
rectangle (0 inside). -/
noncomputable def distancePointToRect (p : Landmark) (r : Rect) : ℝ :=
  let dx := if p.x < r.minX then r.minX - p.x else if p.x > r.maxX then p.x - r.maxX else 0
  let dy := if p.y < r.minY then r.minY - p.y else if p.y > r.maxY then p.y - r.maxY else 0
  Real.sqrt (dx * dx + dy * dy)

/-- JavaScript `Math.min` with `Number.POSITIVE_INFINITY` modelled as `none`. -/
def optMin : Option ℝ → Option ℝ → Option ℝ
  | none, b => b
  | some a, none => some a
  | some a, some b => some (min a b)

/-- `minDistanceToRect`: minimum of the points' distances to the rectangle;
the source folds `Math.min` starting from `POSITIVE_INFINITY` (here `none`). -/
noncomputable def minDistanceToRect (points : List Landmark) (rect : Rect) : Option ℝ :=
  points.foldl (fun m p => optMin m (some (distancePointToRect p rect))) none

/-- `meanZ`: mean of the present (finite) `z` values, `null` when none. -/
noncomputable def meanZ (points : List Landmark) : Option ℝ :=
  let acc := points.foldl
    (fun (acc : ℝ × ℕ) p => match p.z with
      | some z => (acc.1 + z, acc.2 + 1)
      | none => acc)
    (0, 0)
  if acc.2 = 0 then none else some (acc.1 / (acc.2 : ℝ))

end PostureLens

namespace PostureLens

/-! ## Geometry: the shoulder-triangle ratio (reference-store module) -/

/-- `shoulderWidth` term of `calculateTriangleRatio`. -/
noncomputable def shoulderWidth (leftShoulder rightShoulder : Landmark) : ℝ :=
  Real.sqrt ((rightShoulder.x - leftShoulder.x) ^ 2 + (rightShoulder.y - leftShoulder.y) ^ 2)

/-- `midpointToNose` term of `calculateTriangleRatio`: distance from the
shoulder midpoint to the nose. -/
noncomputable def midpointToNose (nose leftShoulder rightShoulder : Landmark) : ℝ :=
  let midpointX := (leftShoulder.x + rightShoulder.x) / 2
  let midpointY := (leftShoulder.y + rightShoulder.y) / 2
  Real.sqrt ((nose.x - midpointX) ^ 2 + (nose.y - midpointY) ^ 2)

/-- `calculateTriangleRatio`: shoulder width over midpoint-to-nose distance,
guarded to return 0 instead of dividing by zero. -/
noncomputable def calculateTriangleRatio (nose leftShoulder rightShoulder : Landmark) : ℝ :=
  if midpointToNose nose leftShoulder rightShoulder = 0 then 0
  else shoulderWidth leftShoulder rightShoulder / midpointToNose nose leftShoulder rightShoulder

/-- The stored reference pose (`ReferencePose` in the reference-store module).
`capturedAt` is the ISO timestamp string. -/
structure ReferencePose where
  nose : Landmark
  leftShoulder : Landmark
  rightShoulder : Landmark
  ratio : ℝ
  capturedAt : String

end PostureLens

namespace PostureLens

/-! ## Alert engine (dispatcher with global cooldown) -/

/-- Colors the flash effect can take. -/
inductive FlashColor
  | red
  | yellow
deriving DecidableEq, Repr

/-- A reified user-visible side effect of the alert engine. -/
inductive AlertEffect
  | flash (color : FlashColor)
  | toast (message : String)
  | beep
deriving DecidableEq, Repr

/-- `AlertEngineOptions` (the `showToast` callback itself is not part of the
state; its invocation is reified as an `AlertEffect.toast`). -/
structure AlertEngineOptions where
  hostname : Option String := none
  cooldownMs : Option ℤ := none
  flashMs : Option ℤ := none

/-- The dispatcher state: configuration plus the last-fired timestamp. -/
structure AlertEngine where
  hostname : String
  cooldownMs : ℤ
  flashMs : ℤ
  lastAlertAtMs : ℤ
deriving DecidableEq, Repr

/-- The `AlertEngine` constructor: hostname defaults to
`window.location.hostname` (passed explicitly here), the cooldown to 5 s on a
local-development host and 60 s otherwise, the flash duration to 650 ms. -/
def AlertEngine.make (opts : AlertEngineOptions) (windowHostname : String) : AlertEngine :=
  let hostname := opts.hostname.getD windowHostname
  let isDevHost := hostname = "localhost" ∨ hostname = "127.0.0.1"
  { hostname := hostname
    cooldownMs := opts.cooldownMs.getD (if isDevHost then 5000 else 60000)
    flashMs := opts.flashMs.getD 650
    lastAlertAtMs := 0 }

/-- `AlertEngine.trigger`, with `Date.now()` passed in as `now`.  Returns the
new state, the `fired` boolean, and the list of produced effects. -/
def AlertEngine.trigger (e : AlertEngine) (now : ℤ) (variant : AlertVariant)
    (reason : String) : AlertEngine × Bool × List AlertEffect :=
  if now - e.lastAlertAtMs < e.cooldownMs then (e, false, [])
  else
    let e' := { e with lastAlertAtMs := now }
    match variant with
    | .normal => (e', true, [.flash .red, .toast reason, .beep])
    | .lowConfidence => (e', true, [.flash .yellow])

end PostureLens

namespace PostureLens

/-! ## Hand/face proximity detector -/

open scoped Classical

/-- `HandFaceProximityOptions`; the defaults are `DEFAULTS` merged over the
caller's options, modelled by default field values. -/
structure HandFaceProximityOptions where
  framesToTrigger : ℕ := 3
  normalizedDistanceThreshold : ℝ := 0.18
  minFaceSize : ℝ := 0.08
  zDistanceThreshold : ℝ := 0.12

/-- The emitted proximity alert event. -/
structure ProximityAlert where
  variant : AlertVariant
  reason : String
  normalizedDistance : ℝ

/-- The mutable state of a `HandFaceProximity` instance. -/
structure ProxState where
  nearStreak : ℕ := 0
  wasNear : Bool := false
deriving DecidableEq, Repr

/-- `HandFaceProximity.reset` (also the freshly constructed state). -/
def ProxState.reset : ProxState := {}

/-- `HandFaceProximity.acknowledge`: marks that an emitted alert was actually
shown. -/
def ProxState.acknowledge (s : ProxState) : ProxState := { s with wasNear := true }

/-- The geometric analysis of `HandFaceProximity.update` (everything before
the streak bookkeeping): returns `some (normalizedDistance, faceSize)` exactly
when the frame classifies as "near", and `none` on every other path — each
early-return guard (`reset(); return null`) and the not-near branch set the
state to `ProxState.reset` and return no event, so `update` below factors
through this analysis. -/
noncomputable def nearData (opts : HandFaceProximityOptions) (results : Results) :
    Option (ℝ × ℝ) :=
  let face := results.faceLandmarks
  let leftHand := results.leftHandLandmarks
  let rightHand := results.rightHandLandmarks
  if face.length = 0 ∨ (leftHand.length = 0 ∧ rightHand.length = 0) then none
  else
    match computeBoundingBox face with
    | none => none
    | some faceRect =>
      let faceW := faceRect.maxX - faceRect.minX
      let faceH := faceRect.maxY - faceRect.minY
      let faceSize := max faceW faceH
      if faceSize ≤ 0 then none
      else
        let leftDist := if leftHand.length ≠ 0 then minDistanceToRect leftHand faceRect else none
        let rightDist := if rightHand.length ≠ 0 then minDistanceToRect rightHand faceRect else none
        match optMin leftDist rightDist with
        | none => none
        | some dist =>
          let normalizedDistance := dist / faceSize
          let faceZ := meanZ face
          let handZ := optMin (meanZ leftHand) (meanZ rightHand)
          let zOk : Prop :=
            match faceZ, handZ with
            | none, _ => True
            | some _, none => True
            | some fz, some hz => |hz - fz| ≤ opts.zDistanceThreshold
          if normalizedDistance ≤ opts.normalizedDistanceThreshold ∧ zOk then
            some (normalizedDistance, faceSize)
          else none

/-- `HandFaceProximity.update`: on a "near" frame increment the streak and
emit once the streak reaches `framesToTrigger` while unacknowledged; on any
other frame reset the streak and latch and return no event. -/
noncomputable def HandFaceProximity.update (opts : HandFaceProximityOptions)
    (s : ProxState) (results : Results) : ProxState × Option ProximityAlert :=
  match nearData opts results with
  | none => (ProxState.reset, none)
  | some (normalizedDistance, faceSize) =>
    let streak := s.nearStreak + 1
    if streak < opts.framesToTrigger then ({ nearStreak := streak, wasNear := s.wasNear }, none)
    else if s.wasNear then ({ nearStreak := streak, wasNear := s.wasNear }, none)
    else
      ({ nearStreak := streak, wasNear := s.wasNear },
        some { variant := if faceSize < opts.minFaceSize then .lowConfidence else .normal
               reason := "Hands near face"
               normalizedDistance := normalizedDistance })

/-- Runs `update` over a list of frames, collecting the per-frame outputs. -/
noncomputable def HandFaceProximity.run (opts : HandFaceProximityOptions) :
    ProxState → List Results → ProxState × List (Option ProximityAlert)
  | s, [] => (s, [])
  | s, f :: fs =>
    let step := HandFaceProximity.update opts s f
    let rest := HandFaceProximity.run opts step.1 fs
    (rest.1, step.2 :: rest.2)

end PostureLens

namespace PostureLens

/-! ## Reference calibration (capture module) -/

/-- A triangle of landmarks extracted from a pose frame. -/
structure Triangle where
  nose : Landmark
  leftShoulder : Landmark
  rightShoulder : Landmark

/-- Landmark indices: nose = 0, left shoulder = 11, right shoulder = 12. -/
def LANDMARK_NOSE : ℕ := 0

/-- Left shoulder landmark index. -/
def LANDMARK_LEFT_SHOULDER : ℕ := 11

/-- Right shoulder landmark index. -/
def LANDMARK_RIGHT_SHOULDER : ℕ := 12

/-- `extractTriangleLandmarks` (capture module) / `extractTriangle` (posture
module): `null` when any of the three indexed landmarks is missing. -/
def extractTriangle (poseLandmarks : List Landmark) : Option Triangle :=
  match poseLandmarks.get? LANDMARK_NOSE, poseLandmarks.get? LANDMARK_LEFT_SHOULDER,
      poseLandmarks.get? LANDMARK_RIGHT_SHOULDER with
  | some nose, some leftShoulder, some rightShoulder =>
    some { nose := nose, leftShoulder := leftShoulder, rightShoulder := rightShoulder }
  | _, _, _ => none

/-- `MIN_CAPTURE_FRAMES = 10`. -/
def MIN_CAPTURE_FRAMES : ℕ := 10

/-- Per-coordinate average of the buffered triangles (the `averaged` /
`nose`/`leftShoulder`/`rightShoulder` computation in `captureReferencePose`):
x, y, z are summed independently, a missing `z` counting as 0
(`frame.nose.z ?? 0`), then each sum is divided by the frame count.  The
source accumulates all nine sums in one loop over the buffer; field-wise
`map`/`sum` is the same computation. -/
noncomputable def averageLandmark (points : List Landmark) : Landmark :=
  { x := (points.map (·.x)).sum / (points.length : ℝ)
    y := (points.map (·.y)).sum / (points.length : ℝ)
    z := some ((points.map (fun p => p.z.getD 0)).sum / (points.length : ℝ)) }

/-- Outcome of a completed capture session. -/
inductive CaptureOutcome
  | insufficientFrames (count : ℕ)
  | captured (pose : ReferencePose)

/-- The tail of `captureReferencePose` as a pure function of the collected
buffer (the wall-clock countdown, UI calls and webcam plumbing around it are
external): fewer than `MIN_CAPTURE_FRAMES` valid triangles fail with the
actual count; otherwise the landmarks are averaged per coordinate, the ratio
is recomputed from the averaged triangle, and the result is stamped with the
current time. -/
noncomputable def captureResult (buffer : List Triangle) (now : String) : CaptureOutcome :=
  if buffer.length < MIN_CAPTURE_FRAMES then .insufficientFrames buffer.length
  else
    let nose := averageLandmark (buffer.map (·.nose))
    let leftShoulder := averageLandmark (buffer.map (·.leftShoulder))
    let rightShoulder := averageLandmark (buffer.map (·.rightShoulder))
    .captured
      { nose := nose, leftShoulder := leftShoulder, rightShoulder := rightShoulder
        ratio := calculateTriangleRatio nose leftShoulder rightShoulder
        capturedAt := now }

/-- The capture session's effect on the single-slot reference store
(`saveReference` is only reached on success; on failure the prior stored
value is untouched). -/
noncomputable def captureAndSave (store : Option ReferencePose) (buffer : List Triangle)
    (now : String) : Option ReferencePose × CaptureOutcome :=
  match captureResult buffer now with
  | .insufficientFrames n => (store, .insufficientFrames n)
  | .captured pose => (some pose, .captured pose)

end PostureLens

namespace PostureLens

/-! ## Posture deviation detector -/

open scoped Classical

/-- The fixed-size moving-average smoother (`values` newest-last; `push`
appends, `shift` removes the head). -/
structure MovingAverage where
  windowSize : ℕ
  values : List ℝ := []
  sum : ℝ := 0

/-- `MovingAverage.reset`. -/
def MovingAverage.reset (m : MovingAverage) : MovingAverage :=
  { m with values := [], sum := 0 }

/-- `MovingAverage.add`: push the value, evict the oldest when the window
overflows, and return the new state together with the returned mean
`sum / values.length`.  `headI`/`tail` model `shift()`: the source checks
`removed !== undefined`, which only matters for an empty list, where `headI`
is 0 and `tail` is `[]`, so the subtraction is a no-op in that (unreachable)
case too. -/
noncomputable def MovingAverage.add (m : MovingAverage) (value : ℝ) : MovingAverage × ℝ :=
  let pushed := m.values ++ [value]
  let sum1 := m.sum + value
  if m.windowSize < pushed.length then
    let removed := pushed.headI
    let values := pushed.tail
    ({ m with values := values, sum := sum1 - removed },
      (sum1 - removed) / (values.length : ℝ))
  else
    ({ m with values := pushed, sum := sum1 }, sum1 / (pushed.length : ℝ))

/-- `noseToShoulderMidpointDeltaY`: vertical offset from the nose to the
shoulder midpoint. -/
noncomputable def noseToShoulderMidpointDeltaY (nose left right : Landmark) : ℝ :=
  (left.y + right.y) / 2 - nose.y

/-- `calculateAverageZ`: mean of the present `z` values of the triangle,
`null` when all three are missing. -/
noncomputable def calculateAverageZ (tri : Triangle) : Option ℝ :=
  let zValues := [tri.nose.z, tri.leftShoulder.z, tri.rightShoulder.z].filterMap id
  if zValues.length = 0 then none
  else some (zValues.sum / (zValues.length : ℝ))

/-- `PostureDeviationOptions` with the source's `DEFAULTS`. -/
structure PostureDeviationOptions where
  windowSize : ℕ := 10
  framesToTrigger : ℕ := 4
  ratioDropThreshold : ℝ := 0.07
  headTiltLowConfidenceThreshold : ℝ := 0.8
  zWeight : ℝ := 0.3
  zDeviationThreshold : ℝ := 0.05

/-- The composite posture score (`PostureScore`); the three rounded
components are integers, `headTiltConfidence` is rounded to two decimals. -/
structure PostureScore where
  overall : ℤ
  ratioComponent : ℤ
  zComponent : ℤ
  headTiltConfidence : ℝ

/-- `calculatePostureScore`: ratio component dropping linearly to 0 at a 50%
ratio drop, a depth reinforcement component defaulting to 100 without depth
data, and a weighted blend with the depth share scaled by the head-tilt
confidence. -/
noncomputable def calculatePostureScore (liveRatio refRatio : ℝ) (liveZ refZ : Option ℝ)
    (headTiltConfidence : ℝ) (opts : PostureDeviationOptions) : PostureScore :=
  let ratioDrop := max 0 (refRatio - liveRatio) / refRatio
  let ratioComponent := max 0 (100 - ratioDrop * 200)
  let zComponent : ℝ :=
    match liveZ, refZ with
    | some lz, some rz =>
      let zDiff := rz - lz
      let zDeviation := max 0 zDiff / |if rz = 0 then 1 else rz|
      max 0 (100 - (zDeviation / opts.zDeviationThreshold) * 100)
    | _, _ => 100
  let overall := round (ratioComponent * (1 - opts.zWeight)
    + zComponent * opts.zWeight * headTiltConfidence)
  { overall := max 0 (min 100 overall)
    ratioComponent := round ratioComponent
    zComponent := round zComponent
    headTiltConfidence := round (headTiltConfidence * 100) / 100 }

/-- The emitted posture alert event. -/
structure PostureAlert where
  variant : AlertVariant
  reason : String
  liveRatio : ℝ
  refRatio : ℝ
  postureScore : ℤ

/-- The mutable state of a `PostureDeviation` instance. -/
structure PostureState where
  ratioAvg : MovingAverage
  headDeltaAvg : MovingAverage
  zAvg : MovingAverage
  badStreak : ℕ := 0
  wasBad : Bool := false
  lastScore : Option PostureScore := none

/-- The freshly constructed `PostureDeviation` state. -/
def PostureDeviation.init (opts : PostureDeviationOptions) : PostureState :=
  { ratioAvg := { windowSize := opts.windowSize }
    headDeltaAvg := { windowSize := opts.windowSize }
    zAvg := { windowSize := opts.windowSize } }

/-- `PostureDeviation.reset`. -/
def PostureState.reset (s : PostureState) : PostureState :=
  { ratioAvg := s.ratioAvg.reset, headDeltaAvg := s.headDeltaAvg.reset
    zAvg := s.zAvg.reset, badStreak := 0, wasBad := false, lastScore := none }

/-- `PostureDeviation.acknowledge`. -/
def PostureState.acknowledge (s : PostureState) : PostureState := { s with wasBad := true }

/-- `PostureDeviation.update`: smooth the instantaneous ratio, head delta and
depth; classify the frame bad when the smoothed ratio is positive yet below
`referenceRatio × (1 − ratioDropThreshold)`; debounce through a
`framesToTrigger` streak and a latch; the emitted variant is low-confidence
when the head-delta ratio versus reference falls below the confidence
threshold. -/
noncomputable def PostureDeviation.update (opts : PostureDeviationOptions)
    (s : PostureState) (results : Results) (reference : ReferencePose) :
    PostureState × Option PostureAlert :=
  let pose := results.poseLandmarks
  if pose.length = 0 then (s.reset, none)
  else
    match extractTriangle pose with
    | none => (s.reset, none)
    | some tri =>
      let r1 := s.ratioAvg.add (calculateTriangleRatio tri.nose tri.leftShoulder tri.rightShoulder)
      let liveRatio := r1.2
      let h1 := s.headDeltaAvg.add
        (noseToShoulderMidpointDeltaY tri.nose tri.leftShoulder tri.rightShoulder)
      let liveHeadDelta := h1.2
      let z1 : MovingAverage × Option ℝ :=
        match calculateAverageZ tri with
        | some zi =>
          let za := s.zAvg.add zi
          (za.1, some za.2)
        | none => (s.zAvg, none)
      let liveZ := z1.2
      let refRatio := reference.ratio
      let ratioThreshold := refRatio * (1 - opts.ratioDropThreshold)
      let isBad : Prop := 0 < liveRatio ∧ liveRatio < ratioThreshold
      let refZ := calculateAverageZ
        { nose := reference.nose, leftShoulder := reference.leftShoulder
          rightShoulder := reference.rightShoulder }
      let refHeadDelta := noseToShoulderMidpointDeltaY
        reference.nose reference.leftShoulder reference.rightShoulder
      let headDeltaRatio := if 0 < refHeadDelta then liveHeadDelta / refHeadDelta else 1
      let headTiltConfidence := min 1 (headDeltaRatio / opts.headTiltLowConfidenceThreshold)
      let score := calculatePostureScore liveRatio refRatio liveZ refZ headTiltConfidence opts
      let s' : PostureState :=
        { ratioAvg := r1.1, headDeltaAvg := h1.1, zAvg := z1.1
          badStreak := s.badStreak, wasBad := s.wasBad, lastScore := some score }
      if isBad then
        let streak := s.badStreak + 1
        if streak < opts.framesToTrigger then ({ s' with badStreak := streak }, none)
        else if s.wasBad then ({ s' with badStreak := streak }, none)
        else
          ({ s' with badStreak := streak },
            some { variant := if headDeltaRatio < opts.headTiltLowConfidenceThreshold
                     then .lowConfidence else .normal
                   reason := "Posture"
                   liveRatio := liveRatio
                   refRatio := refRatio
                   postureScore := score.overall })
      else ({ s' with badStreak := 0, wasBad := false }, none)

/-- Runs `PostureDeviation.update` over a list of frames against a fixed
reference, collecting the per-frame outputs. -/
noncomputable def PostureDeviation.run (opts : PostureDeviationOptions)
    (reference : ReferencePose) :
    PostureState → List Results → PostureState × List (Option PostureAlert)
  | s, [] => (s, [])
  | s, f :: fs =>
    let step := PostureDeviation.update opts s f reference
    let rest := PostureDeviation.run opts reference step.1 fs
    (rest.1, step.2 :: rest.2)

end PostureLens

namespace PostureLens

/-! ## Frame orchestration -/

/-- Which detector's event the orchestration dispatched this frame. -/
inductive DispatchedEvent
  | proximity (event : ProximityAlert)
  | posture (event : PostureAlert)

/-- The monitoring-mode state the orchestration threads through frames. -/
structure OrchestrationState where
  prox : ProxState
  post : PostureState
  engine : AlertEngine

/-- Modelled from the spec: the per-frame orchestration of §4.6 (Frame
Orchestration) is not among the repository's source files — the
`onDetectorResults` in `src/src/main.ts` only draws overlays and collects
calibration frames, and nothing in `src/` wires the two detectors to the
`AlertEngine` — so this definition follows the spec's words: outside a
calibration session, always update the Proximity Detector; update the Posture
Deviation Detector exactly when a ReferencePose exists; if the Proximity
Detector produced an event, attempt to dispatch it and on success acknowledge
only the Proximity Detector; otherwise, if the Posture Detector produced an
event, attempt to dispatch it and on success acknowledge only the Posture
Detector. -/
noncomputable def processFrame (proxOpts : HandFaceProximityOptions)
    (postOpts : PostureDeviationOptions) (reference : Option ReferencePose)
    (st : OrchestrationState) (now : ℤ) (results : Results) :
    OrchestrationState × Option DispatchedEvent × List AlertEffect :=
  let proxStep := HandFaceProximity.update proxOpts st.prox results
  let postStep :=
    match reference with
    | some ref => PostureDeviation.update postOpts st.post results ref
    | none => (st.post, none)
  match proxStep.2 with
  | some ev =>
    let t := st.engine.trigger now ev.variant ev.reason
    ({ prox := if t.2.1 then proxStep.1.acknowledge else proxStep.1
       post := postStep.1, engine := t.1 },
      some (.proximity ev), t.2.2)
  | none =>
    match postStep.2 with
    | some ev =>
      let t := st.engine.trigger now ev.variant ev.reason
      ({ prox := proxStep.1
         post := if t.2.1 then postStep.1.acknowledge else postStep.1
         engine := t.1 },
        some (.posture ev), t.2.2)
    | none =>
      ({ prox := proxStep.1, post := postStep.1, engine := st.engine }, none, [])

end PostureLens

namespace PostureLens

/-- Folds a sequence of samples through `MovingAverage.add`, keeping the
state. -/
noncomputable def MovingAverage.addAll (m : MovingAverage) (xs : List ℝ) : MovingAverage :=
  xs.foldl (fun m x => (m.add x).1) m

end PostureLens

namespace PostureLens

/-- A concrete test frame for the proximity witnesses: two face landmarks
spanning a 0.3 × 0.4 box (face size 0.4) and one left-hand landmark inside
the box (distance 0), no depth data. -/
noncomputable def nearFrameA : Results :=
  { faceLandmarks := [{ x := 3/10, y := 3/10 }, { x := 6/10, y := 7/10 }]
    leftHandLandmarks := [{ x := 4/10, y := 5/10 }] }

/-- A concrete frame with no landmarks at all (not near: the guards fire). -/
def emptyFrame : Results := {}

end PostureLens

namespace PostureLens

/-- A concrete test pose frame for the posture witnesses: 13 pose landmarks
with nose at index 0, shoulders at 11 and 12; shoulder width 0.45, shoulder
midpoint (0.5, 0.7), nose (0.5, 0.2), so the triangle ratio is 0.45 / 0.5 =
0.9 and the head delta is 0.5. -/
noncomputable def postureFrameA : Results :=
  { poseLandmarks :=
      [{ x := 1/2, y := 1/5 },
        { x := 0, y := 0 }, { x := 0, y := 0 }, { x := 0, y := 0 }, { x := 0, y := 0 },
        { x := 0, y := 0 }, { x := 0, y := 0 }, { x := 0, y := 0 }, { x := 0, y := 0 },
        { x := 0, y := 0 }, { x := 0, y := 0 },
        { x := 11/40, y := 7/10 }, { x := 29/40, y := 7/10 }] }

/-- Like `postureFrameA` but with shoulder width 0.475, so the triangle
ratio is 0.95. -/
noncomputable def postureFrameB : Results :=
  { poseLandmarks :=
      [{ x := 1/2, y := 1/5 },
        { x := 0, y := 0 }, { x := 0, y := 0 }, { x := 0, y := 0 }, { x := 0, y := 0 },
        { x := 0, y := 0 }, { x := 0, y := 0 }, { x := 0, y := 0 }, { x := 0, y := 0 },
        { x := 0, y := 0 }, { x := 0, y := 0 },
        { x := 21/80, y := 7/10 }, { x := 59/80, y := 7/10 }] }

/-- A concrete reference pose with ratio 1 and head delta 0.5. -/
noncomputable def postureRefA : ReferencePose :=
  { nose := { x := 1/2, y := 1/5 }
    leftShoulder := { x := 1/4, y := 7/10 }
    rightShoulder := { x := 3/4, y := 7/10 }
    ratio := 1
    capturedAt := "ref" }

end PostureLens

namespace PostureLens

/-! ## Theorems: alert dispatcher (C3, C8) -/

/-- C3: `AlertEngine.trigger` with cooldown window `C` (default 60000 ms,
5000 ms on a local-development hostname, with an explicit `cooldownMs`
override accepted): a call at time `t` with `t − lastFired < C` returns
`false` and leaves the whole dispatcher state unchanged; otherwise it returns
`true` and sets the last-fired timestamp to `t`; consequently of two calls
within one cooldown window (opened by the first) exactly the first fires, and
a third call after the window has elapsed fires again. -/
theorem alertEngine_cooldown_correct :
    (∀ host : String, host ≠ "localhost" → host ≠ "127.0.0.1" →
      (AlertEngine.make {} host).cooldownMs = 60000) ∧
    ((AlertEngine.make {} "localhost").cooldownMs = 5000) ∧
    ((AlertEngine.make {} "127.0.0.1").cooldownMs = 5000) ∧
    (∀ (host : String) (c : ℤ),
      (AlertEngine.make { cooldownMs := some c } host).cooldownMs = c) ∧
    (∀ (e : AlertEngine) (now : ℤ) (v : AlertVariant) (r : String),
      now - e.lastAlertAtMs < e.cooldownMs → e.trigger now v r = (e, false, [])) ∧
    (∀ (e : AlertEngine) (now : ℤ) (v : AlertVariant) (r : String),
      e.cooldownMs ≤ now - e.lastAlertAtMs →
      (e.trigger now v r).2.1 = true ∧
      (e.trigger now v r).1 = { e with lastAlertAtMs := now }) ∧
    (∀ (e : AlertEngine) (t1 t2 t3 : ℤ) (v1 v2 v3 : AlertVariant) (r1 r2 r3 : String),
      e.cooldownMs ≤ t1 - e.lastAlertAtMs →
      t2 - t1 < e.cooldownMs →
      e.cooldownMs ≤ t3 - t1 →
      (e.trigger t1 v1 r1).2.1 = true ∧
      ((e.trigger t1 v1 r1).1.trigger t2 v2 r2).2.1 = false ∧
      ((((e.trigger t1 v1 r1).1.trigger t2 v2 r2).1).trigger t3 v3 r3).2.1 = true) := by
  have hmk : ∀ (opts : AlertEngineOptions) (host : String),
      (AlertEngine.make opts host).cooldownMs =
        opts.cooldownMs.getD
          (if opts.hostname.getD host = "localhost" ∨ opts.hostname.getD host = "127.0.0.1"
            then 5000 else 60000) := by
    intro opts host; rfl
  have hsupp : ∀ (e : AlertEngine) (now : ℤ) (v : AlertVariant) (r : String),
      now - e.lastAlertAtMs < e.cooldownMs → e.trigger now v r = (e, false, []) := by
    intro e now v r h
    unfold AlertEngine.trigger
    rw [if_pos h]
  have hfire : ∀ (e : AlertEngine) (now : ℤ) (v : AlertVariant) (r : String),
      e.cooldownMs ≤ now - e.lastAlertAtMs →
      (e.trigger now v r).2.1 = true ∧
      (e.trigger now v r).1 = { e with lastAlertAtMs := now } := by
    intro e now v r h
    unfold AlertEngine.trigger
    rw [if_neg (not_lt.mpr h)]
    cases v <;> exact ⟨rfl, rfl⟩
  refine ⟨?_, ?_, ?_, ?_, hsupp, hfire, ?_⟩
  · intro host h1 h2
    rw [hmk]
    simp [Option.getD, h1, h2]
  · rw [hmk]; simp
  · rw [hmk]; simp
  · intro host c; rw [hmk]; simp
  · intro e t1 t2 t3 v1 v2 v3 r1 r2 r3 h1 h2 h3
    obtain ⟨hb1, hs1⟩ := hfire e t1 v1 r1 h1
    refine ⟨hb1, ?_, ?_⟩
    · rw [hs1, hsupp _ t2 v2 r2 (by simpa using h2)]
    · rw [hs1, hsupp _ t2 v2 r2 (by simpa using h2)]
      exact (hfire _ t3 v3 r3 (by simpa using h3)).1

/-- Witness for C3: with the production cooldown of 60 s and a fresh engine,
a call at t = 100000 fires, a second at t = 120000 inside the window is
suppressed, and a third at t = 161000 fires again. -/
theorem alertEngine_cooldown_correct_witness :
    ((AlertEngine.make {} "posturelens.app").cooldownMs = 60000) ∧
    ((AlertEngine.make {} "posturelens.app").trigger 100000 .normal "Posture").2.1 = true ∧
    (((AlertEngine.make {} "posturelens.app").trigger 100000 .normal "Posture").1.trigger
      120000 .normal "Posture").2.1 = false ∧
    ((((AlertEngine.make {} "posturelens.app").trigger 100000 .normal "Posture").1.trigger
      120000 .normal "Posture").1.trigger 161000 .lowConfidence "Posture").2.1 = true := by
  obtain ⟨hdef, -, -, -, -, -, hchain⟩ := alertEngine_cooldown_correct
  have hC := hdef "posturelens.app" (by decide) (by decide)
  have h := hchain (AlertEngine.make {} "posturelens.app") 100000 120000 161000
    .normal .normal .lowConfidence "Posture" "Posture" "Posture"
    (by rw [hC]; decide) (by rw [hC]; decide) (by rw [hC]; decide)
  exact ⟨hC, h.1, h.2.1, h.2.2⟩

/-- C8: when `trigger` fires with variant low-confidence only the flash is
produced, in its distinct yellow color — the tone and the toast callback are
never invoked; when it fires with variant normal the red flash, the toast
with the reason string, and the tone are all produced. -/
theorem alertEngine_lowConfidence_effects :
    ∀ (e : AlertEngine) (now : ℤ) (reason : String),
      e.cooldownMs ≤ now - e.lastAlertAtMs →
      ((e.trigger now .lowConfidence reason).2.1 = true ∧
        (e.trigger now .lowConfidence reason).2.2 = [.flash .yellow] ∧
        (∀ m, AlertEffect.toast m ∉ (e.trigger now .lowConfidence reason).2.2) ∧
        AlertEffect.beep ∉ (e.trigger now .lowConfidence reason).2.2) ∧
      ((e.trigger now .normal reason).2.1 = true ∧
        (e.trigger now .normal reason).2.2 = [.flash .red, .toast reason, .beep]) := by
  intro e now reason h
  have hlc : e.trigger now .lowConfidence reason =
      ({ e with lastAlertAtMs := now }, true, [.flash .yellow]) := by
    unfold AlertEngine.trigger
    rw [if_neg (not_lt.mpr h)]
  have hn : e.trigger now .normal reason =
      ({ e with lastAlertAtMs := now }, true, [.flash .red, .toast reason, .beep]) := by
    unfold AlertEngine.trigger
    rw [if_neg (not_lt.mpr h)]
  rw [hlc, hn]
  refine ⟨⟨rfl, rfl, ?_, ?_⟩, rfl, rfl⟩
  · intro m hm; simp at hm
  · simp

/-- Witness for C8: a fresh production engine fired at t = 70000. -/
theorem alertEngine_lowConfidence_effects_witness :
    ((AlertEngine.make {} "posturelens.app").trigger 70000 .lowConfidence "Posture").2.2 =
      [.flash .yellow] ∧
    ((AlertEngine.make {} "posturelens.app").trigger 70000 .normal "Posture").2.2 =
      [.flash .red, .toast "Posture", .beep] := by
  have h := alertEngine_lowConfidence_effects (AlertEngine.make {} "posturelens.app")
    70000 "Posture" (by decide)
  exact ⟨h.1.2.1, h.2.2⟩

end PostureLens

namespace PostureLens

/-! ## Theorems: geometry (C9) -/

/-- C9: for every triangle whose shoulder-midpoint-to-nose distance is
exactly 0, `calculateTriangleRatio` returns exactly 0; the division is
guarded — on every other input the divisor is strictly positive — and the
result is always a well-defined nonnegative real (the embedding in `ℝ` has
no NaN or Infinity; the absence of a zero division is the meaningful
residue of that claim). -/
theorem calculateTriangleRatio_zero_guard :
    ∀ nose leftShoulder rightShoulder : Landmark,
      (midpointToNose nose leftShoulder rightShoulder = 0 →
        calculateTriangleRatio nose leftShoulder rightShoulder = 0) ∧
      (midpointToNose nose leftShoulder rightShoulder ≠ 0 →
        0 < midpointToNose nose leftShoulder rightShoulder ∧
        calculateTriangleRatio nose leftShoulder rightShoulder =
          shoulderWidth leftShoulder rightShoulder /
            midpointToNose nose leftShoulder rightShoulder) ∧
      0 ≤ calculateTriangleRatio nose leftShoulder rightShoulder := by
  intro n l r
  have hmn : 0 ≤ midpointToNose n l r := Real.sqrt_nonneg _
  have hsw : 0 ≤ shoulderWidth l r := Real.sqrt_nonneg _
  refine ⟨?_, ?_, ?_⟩
  · intro h
    unfold calculateTriangleRatio
    rw [if_pos h]
  · intro h
    refine ⟨lt_of_le_of_ne hmn (Ne.symm h), ?_⟩
    unfold calculateTriangleRatio
    rw [if_neg h]
  · unfold calculateTriangleRatio
    split
    · exact le_refl 0
    · exact div_nonneg hsw hmn

/-- Witness for C9: the degenerate pose whose nose sits exactly on the
shoulder midpoint yields the ratio 0. -/
theorem calculateTriangleRatio_zero_guard_witness :
    midpointToNose { x := 1/2, y := 1/2 } { x := 3/10, y := 1/2 } { x := 7/10, y := 1/2 } = 0 ∧
    calculateTriangleRatio { x := 1/2, y := 1/2 } { x := 3/10, y := 1/2 }
      { x := 7/10, y := 1/2 } = 0 := by
  have hmid : midpointToNose { x := 1/2, y := 1/2 } { x := 3/10, y := 1/2 }
      { x := 7/10, y := 1/2 } = 0 := by
    unfold midpointToNose
    norm_num
  exact ⟨hmid,
    (calculateTriangleRatio_zero_guard { x := 1/2, y := 1/2 } { x := 3/10, y := 1/2 }
      { x := 7/10, y := 1/2 }).1 hmid⟩

end PostureLens

namespace PostureLens

/-! ## Theorems: reference calibration (C5, C6) -/

/-- C5: a completed capture session with fewer than 10 valid triangles fails
reporting the actual collected frame count, produces no ReferencePose and
leaves the stored reference exactly as it was; with at least 10 valid
triangles it proceeds to averaging and saving. -/
theorem capture_insufficient_frames :
    (∀ (store : Option ReferencePose) (buffer : List Triangle) (now : String),
      buffer.length < MIN_CAPTURE_FRAMES →
      captureAndSave store buffer now = (store, .insufficientFrames buffer.length)) ∧
    (∀ (store : Option ReferencePose) (buffer : List Triangle) (now : String),
      MIN_CAPTURE_FRAMES ≤ buffer.length →
      ∃ pose, captureResult buffer now = .captured pose ∧
        captureAndSave store buffer now = (some pose, .captured pose)) := by
  constructor
  · intro store buffer now h
    unfold captureAndSave captureResult
    rw [if_pos h]
  · intro store buffer now h
    unfold captureAndSave captureResult
    rw [if_neg (not_lt.mpr h)]
    exact ⟨_, rfl, rfl⟩

/-- Witness for C5: 9 buffered copies of a triangle (one below the minimum)
fail with count 9 and leave the prior stored reference untouched; 10 copies
succeed. -/
theorem capture_insufficient_frames_witness :
    (captureAndSave
        (some { nose := { x := 0, y := 0 }, leftShoulder := { x := 0, y := 1 }
                rightShoulder := { x := 1, y := 1 }, ratio := 1, capturedAt := "before" })
        (List.replicate 9
          { nose := { x := 1/2, y := 1/5 }, leftShoulder := { x := 1/4, y := 4/5 }
            rightShoulder := { x := 3/4, y := 4/5 } }) "now" =
      (some { nose := { x := 0, y := 0 }, leftShoulder := { x := 0, y := 1 }
              rightShoulder := { x := 1, y := 1 }, ratio := 1, capturedAt := "before" },
        .insufficientFrames 9)) ∧
    (∃ pose, captureAndSave
        (some { nose := { x := 0, y := 0 }, leftShoulder := { x := 0, y := 1 }
                rightShoulder := { x := 1, y := 1 }, ratio := 1, capturedAt := "before" })
        (List.replicate 10
          { nose := { x := 1/2, y := 1/5 }, leftShoulder := { x := 1/4, y := 4/5 }
            rightShoulder := { x := 3/4, y := 4/5 } }) "now" = (some pose, .captured pose)) := by
  constructor
  · have h := capture_insufficient_frames.1
      (some { nose := { x := 0, y := 0 }, leftShoulder := { x := 0, y := 1 }
              rightShoulder := { x := 1, y := 1 }, ratio := 1, capturedAt := "before" })
      (List.replicate 9
        { nose := { x := 1/2, y := 1/5 }, leftShoulder := { x := 1/4, y := 4/5 }
          rightShoulder := { x := 3/4, y := 4/5 } }) "now" (by simp [MIN_CAPTURE_FRAMES])
    simpa using h
  · obtain ⟨pose, -, hsave⟩ := capture_insufficient_frames.2
      (some { nose := { x := 0, y := 0 }, leftShoulder := { x := 0, y := 1 }
              rightShoulder := { x := 1, y := 1 }, ratio := 1, capturedAt := "before" })
      (List.replicate 10
        { nose := { x := 1/2, y := 1/5 }, leftShoulder := { x := 1/4, y := 4/5 }
          rightShoulder := { x := 3/4, y := 4/5 } }) "now" (by simp [MIN_CAPTURE_FRAMES])
    exact ⟨pose, hsave⟩

/-- The averaged landmark of `N > 0` copies of one landmark has that
landmark's x and y (its z becomes `some (z ?? 0)`, which the ratio ignores). -/
theorem averageLandmark_replicate (p : Landmark) (n : ℕ) (hn : n ≠ 0) :
    (averageLandmark (List.replicate n p)).x = p.x ∧
    (averageLandmark (List.replicate n p)).y = p.y := by
  have hn' : (n : ℝ) ≠ 0 := Nat.cast_ne_zero.mpr hn
  constructor <;>
  · simp [averageLandmark, List.map_replicate, List.sum_replicate, nsmul_eq_mul]
    field_simp

/-- `calculateTriangleRatio` only reads the x and y coordinates. -/
theorem calculateTriangleRatio_congr_xy {n n' l l' r r' : Landmark}
    (hnx : n.x = n'.x) (hny : n.y = n'.y) (hlx : l.x = l'.x) (hly : l.y = l'.y)
    (hrx : r.x = r'.x) (hry : r.y = r'.y) :
    calculateTriangleRatio n l r = calculateTriangleRatio n' l' r' := by
  unfold calculateTriangleRatio shoulderWidth midpointToNose
  rw [hnx, hny, hlx, hly, hrx, hry]

/-- C6: on successful calibration the saved ratio is
`calculateTriangleRatio` of the per-coordinate averages of the buffered
triangles (not an average of per-frame ratios); in particular a buffer of
`N ≥ 10` copies of one triangle saves exactly that triangle's ratio. -/
theorem capture_ratio_from_averaged_triangle :
    (∀ (buffer : List Triangle) (now : String),
      MIN_CAPTURE_FRAMES ≤ buffer.length →
      ∃ pose, captureResult buffer now = .captured pose ∧
        pose.nose = averageLandmark (buffer.map (·.nose)) ∧
        pose.leftShoulder = averageLandmark (buffer.map (·.leftShoulder)) ∧
        pose.rightShoulder = averageLandmark (buffer.map (·.rightShoulder)) ∧
        pose.ratio = calculateTriangleRatio
          (averageLandmark (buffer.map (·.nose)))
          (averageLandmark (buffer.map (·.leftShoulder)))
          (averageLandmark (buffer.map (·.rightShoulder)))) ∧
    (∀ (t : Triangle) (n : ℕ) (now : String),
      MIN_CAPTURE_FRAMES ≤ n →
      ∃ pose, captureResult (List.replicate n t) now = .captured pose ∧
        pose.ratio = calculateTriangleRatio t.nose t.leftShoulder t.rightShoulder) := by
  have hmain : ∀ (buffer : List Triangle) (now : String),
      MIN_CAPTURE_FRAMES ≤ buffer.length →
      ∃ pose, captureResult buffer now = .captured pose ∧
        pose.nose = averageLandmark (buffer.map (·.nose)) ∧
        pose.leftShoulder = averageLandmark (buffer.map (·.leftShoulder)) ∧
        pose.rightShoulder = averageLandmark (buffer.map (·.rightShoulder)) ∧
        pose.ratio = calculateTriangleRatio
          (averageLandmark (buffer.map (·.nose)))
          (averageLandmark (buffer.map (·.leftShoulder)))
          (averageLandmark (buffer.map (·.rightShoulder))) := by
    intro buffer now h
    unfold captureResult
    rw [if_neg (not_lt.mpr h)]
    exact ⟨_, rfl, rfl, rfl, rfl, rfl⟩
  refine ⟨hmain, ?_⟩
  intro t n now h
  have hn : n ≠ 0 := by
    intro h0
    rw [h0] at h
    simp [MIN_CAPTURE_FRAMES] at h
  obtain ⟨pose, hcap, -, -, -, hratio⟩ := hmain (List.replicate n t) now (by simpa using h)
  refine ⟨pose, hcap, ?_⟩
  rw [hratio]
  simp only [List.map_replicate]
  exact calculateTriangleRatio_congr_xy
    (averageLandmark_replicate t.nose n hn).1 (averageLandmark_replicate t.nose n hn).2
    (averageLandmark_replicate t.leftShoulder n hn).1
    (averageLandmark_replicate t.leftShoulder n hn).2
    (averageLandmark_replicate t.rightShoulder n hn).1
    (averageLandmark_replicate t.rightShoulder n hn).2

/-- Witness for C6: ten copies of a concrete triangle save exactly that
triangle's ratio. -/
theorem capture_ratio_from_averaged_triangle_witness :
    ∃ pose, captureResult (List.replicate 10
        { nose := { x := 1/2, y := 1/5 }, leftShoulder := { x := 1/4, y := 4/5 }
          rightShoulder := { x := 3/4, y := 4/5 } }) "now" = .captured pose ∧
      pose.ratio = calculateTriangleRatio { x := 1/2, y := 1/5 }
        { x := 1/4, y := 4/5 } { x := 3/4, y := 4/5 } := by
  obtain ⟨pose, hcap, hratio⟩ := capture_ratio_from_averaged_triangle.2
    { nose := { x := 1/2, y := 1/5 }, leftShoulder := { x := 1/4, y := 4/5 }
      rightShoulder := { x := 3/4, y := 4/5 } } 10 "now" (by simp [MIN_CAPTURE_FRAMES])
  exact ⟨pose, hcap, hratio⟩

end PostureLens

namespace PostureLens

/-! ## Theorems: the moving-average smoother (C10) -/

/-- One `add` step: the window size is unchanged, the stored sum tracks the
stored samples, the returned value is `sum / length` of the new samples, and
the new samples are the pushed list with the oldest evicted exactly on
overflow. -/
theorem MovingAverage.add_char (m : MovingAverage) (v : ℝ) (hsum : m.sum = m.values.sum) :
    (m.add v).1.windowSize = m.windowSize ∧
    (m.add v).1.sum = (m.add v).1.values.sum ∧
    (m.add v).2 = (m.add v).1.values.sum / ((m.add v).1.values.length : ℝ) ∧
    (m.windowSize < m.values.length + 1 → (m.add v).1.values = (m.values ++ [v]).tail) ∧
    (m.values.length + 1 ≤ m.windowSize → (m.add v).1.values = m.values ++ [v]) := by
  have hpush : (m.values ++ [v]).headI + (m.values ++ [v]).tail.sum = (m.values ++ [v]).sum := by
    cases hx : m.values ++ [v] with
    | nil => simp at hx
    | cons b t => simp
  have hsum1 : m.sum + v = (m.values ++ [v]).sum := by simp [hsum]
  unfold MovingAverage.add
  simp only [List.length_append, List.length_singleton]
  split
  · next h =>
    refine ⟨rfl, ?_, ?_, fun _ => rfl, fun h2 => absurd h (by omega)⟩
    · simp only
      linarith [hpush, hsum1]
    · simp only
      have : m.sum + v - (m.values ++ [v]).headI = (m.values ++ [v]).tail.sum := by
        linarith [hpush, hsum1]
      rw [this]
  · next h =>
    refine ⟨rfl, ?_, ?_, fun h2 => absurd h2 h, fun _ => rfl⟩
    · simpa using hsum1
    · simp only
      rw [hsum1]
      simp

/-- After feeding `xs` into a fresh window of size `w ≥ 1`, the stored
samples are the last `min |xs| w` samples and the stored sum is their sum. -/
theorem MovingAverage.addAll_char (w : ℕ) (hw : 1 ≤ w) (xs : List ℝ) :
    (MovingAverage.addAll ⟨w, [], 0⟩ xs).windowSize = w ∧
    (MovingAverage.addAll ⟨w, [], 0⟩ xs).values = xs.drop (xs.length - w) ∧
    (MovingAverage.addAll ⟨w, [], 0⟩ xs).sum = (xs.drop (xs.length - w)).sum := by
  induction xs using List.reverseRecOn with
  | nil => simp [MovingAverage.addAll]
  | append_singleton l a ih =>
    obtain ⟨ihw, ihv, ihs⟩ := ih
    have hstep : MovingAverage.addAll ⟨w, [], 0⟩ (l ++ [a]) =
        ((MovingAverage.addAll ⟨w, [], 0⟩ l).add a).1 := by
      unfold MovingAverage.addAll
      rw [List.foldl_append]
      rfl
    have hlen : (MovingAverage.addAll ⟨w, [], 0⟩ l).values.length = min l.length w := by
      rw [ihv, List.length_drop]
      omega
    obtain ⟨hw', hs', -, hfull, hsmall⟩ :=
      MovingAverage.add_char (MovingAverage.addAll ⟨w, [], 0⟩ l) a (by rw [ihs, ihv])
    have hvals : ((MovingAverage.addAll ⟨w, [], 0⟩ l).add a).1.values =
        (l ++ [a]).drop ((l ++ [a]).length - w) := by
      by_cases hcase : w ≤ l.length
      · have hcond : (MovingAverage.addAll ⟨w, [], 0⟩ l).windowSize <
            (MovingAverage.addAll ⟨w, [], 0⟩ l).values.length + 1 := by
          rw [ihw, hlen]; omega
        rw [hfull hcond, ihv]
        have hne : l.drop (l.length - w) ≠ [] := by
          intro hnil
          have := congrArg List.length hnil
          rw [List.length_drop] at this
          simp at this
          omega
        rw [List.tail_append_of_ne_nil hne, List.tail_drop,
          List.drop_append_eq_append_drop]
        have h1 : l.length - w + 1 = (l ++ [a]).length - w := by
          simp
          omega
        have h2 : (l ++ [a]).length - w - l.length = 0 := by
          simp
          omega
        rw [h1, h2]
        simp
      · have hcond : (MovingAverage.addAll ⟨w, [], 0⟩ l).values.length + 1 ≤
            (MovingAverage.addAll ⟨w, [], 0⟩ l).windowSize := by
          rw [ihw, hlen]; omega
        rw [hsmall hcond, ihv]
        have h0 : l.length - w = 0 := by omega
        have h1 : (l ++ [a]).length - w = 0 := by simp; omega
        rw [h0, h1]
        simp
    rw [hstep]
    exact ⟨by rw [hw', ihw], hvals, by rw [hs', hvals]⟩

/-- C10: the moving-average smoother holds at most `windowSize` samples
(evicting the oldest on overflow) with its stored sum equal to the sum of the
stored samples, an invariant preserved by every `add` and by `reset`;
consequently after `k` adds into a fresh window of size `w ≥ 1`, `add`
returns the arithmetic mean of the most recent `min k w` samples — in
particular the smoothed value is already defined by the very first sample. -/
theorem movingAverage_invariant_and_mean :
    (∀ (m : MovingAverage) (v : ℝ),
      m.values.length ≤ m.windowSize → m.sum = m.values.sum →
      (m.add v).1.values.length ≤ m.windowSize ∧
      (m.add v).1.sum = (m.add v).1.values.sum ∧
      (m.windowSize < m.values.length + 1 → (m.add v).1.values = (m.values ++ [v]).tail) ∧
      (m.values.length + 1 ≤ m.windowSize → (m.add v).1.values = m.values ++ [v])) ∧
    (∀ m : MovingAverage,
      m.reset.values.length ≤ m.reset.windowSize ∧ m.reset.sum = m.reset.values.sum) ∧
    (∀ (w : ℕ) (xs : List ℝ) (x : ℝ), 1 ≤ w →
      ((MovingAverage.addAll ⟨w, [], 0⟩ xs).add x).2 =
        ((xs ++ [x]).drop (xs.length + 1 - w)).sum / ((min (xs.length + 1) w : ℕ) : ℝ)) ∧
    (∀ (w : ℕ) (x : ℝ), 1 ≤ w → ((MovingAverage.mk w [] 0).add x).2 = x) := by
  refine ⟨?_, ?_, ?_, ?_⟩
  · intro m v hlen hsum
    obtain ⟨-, hs, -, hfull, hsmall⟩ := MovingAverage.add_char m v hsum
    refine ⟨?_, hs, hfull, hsmall⟩
    by_cases h : m.windowSize < m.values.length + 1
    · rw [hfull h]
      simp only [List.length_tail, List.length_append, List.length_singleton]
      omega
    · rw [hsmall (by omega)]
      simp only [List.length_append, List.length_singleton]
      omega
  · intro m
    simp [MovingAverage.reset]
  · intro w xs x hw
    have hstep : MovingAverage.addAll ⟨w, [], 0⟩ (xs ++ [x]) =
        ((MovingAverage.addAll ⟨w, [], 0⟩ xs).add x).1 := by
      unfold MovingAverage.addAll
      rw [List.foldl_append]
      rfl
    obtain ⟨-, hv2, hs2⟩ := MovingAverage.addAll_char w hw (xs ++ [x])
    rw [hstep] at hv2 hs2
    obtain ⟨-, -, hret, -, -⟩ :=
      MovingAverage.add_char (MovingAverage.addAll ⟨w, [], 0⟩ xs) x
        (by
          obtain ⟨-, hv1, hs1⟩ := MovingAverage.addAll_char w hw xs
          rw [hs1, hv1])
    rw [hret, hv2]
    have hcast : (((xs ++ [x]).drop ((xs ++ [x]).length - w)).length : ℝ) =
        ((min (xs.length + 1) w : ℕ) : ℝ) := by
      rw [List.length_drop]
      congr 1
      simp
      omega
    rw [hcast]
    have harg : (xs ++ [x]).length - w = xs.length + 1 - w := by simp
    rw [harg]
  · intro w x hw
    unfold MovingAverage.add
    rw [if_neg (by simp; omega)]
    simp

/-- Witness for C10: a window of size 2 fed 1, 2, 3 returns the mean of the
two most recent samples, 5/2. -/
theorem movingAverage_invariant_and_mean_witness :
    ((MovingAverage.addAll ⟨2, [], 0⟩ [1, 2]).add 3).2 = 5 / 2 ∧
    ((MovingAverage.mk 3 [] 0).add 7).2 = 7 := by
  constructor
  · have h := movingAverage_invariant_and_mean.2.2.1 2 [1, 2] 3 (by norm_num)
    rw [h]
    norm_num
  · exact movingAverage_invariant_and_mean.2.2.2 3 7 (by norm_num)

end PostureLens

namespace PostureLens

/-! ## Theorems: proximity detector (C1, C7) -/

/-- On a frame that does not classify "near" (including every early-return
guard), `update` resets the streak and the latch and returns no event. -/
theorem HandFaceProximity.update_not_near (opts : HandFaceProximityOptions)
    (s : ProxState) (f : Results) (h : nearData opts f = none) :
    HandFaceProximity.update opts s f = (ProxState.reset, none) := by
  unfold HandFaceProximity.update
  rw [h]

/-- On a "near" frame, `update` increments the streak, leaves the latch
as-is, and emits exactly when the streak has reached the trigger count and
the latch is clear. -/
theorem HandFaceProximity.update_near (opts : HandFaceProximityOptions)
    (s : ProxState) (f : Results) (nd fs : ℝ) (h : nearData opts f = some (nd, fs)) :
    HandFaceProximity.update opts s f =
      (⟨s.nearStreak + 1, s.wasNear⟩,
        if s.nearStreak + 1 < opts.framesToTrigger then none
        else if s.wasNear then none
        else some
          { variant := if fs < opts.minFaceSize then .lowConfidence else .normal
            reason := "Hands near face", normalizedDistance := nd }) := by
  unfold HandFaceProximity.update
  rw [h]
  dsimp only
  split_ifs <;> rfl

/-- C1: for the proximity detector with default options, over runs of
consecutive "near" frames with face size at least 0.08: no event on the
first two near frames from a reset state and a normal event on the third;
after an acknowledgment every later consecutive near frame yields no event;
an unacknowledged event is re-emitted on every subsequent near frame; and a
single not-near frame resets streak and latch (so three further near frames
re-trigger, by the first part). -/
theorem proximity_rising_edge_behavior :
    (∀ f1 f2 f3 : Results,
      (∀ f ∈ [f1, f2, f3], ∃ p : ℝ × ℝ, nearData {} f = some p ∧ 0.08 ≤ p.2) →
      (HandFaceProximity.update {} ProxState.reset f1).2 = none ∧
      (HandFaceProximity.update {} (HandFaceProximity.update {} ProxState.reset f1).1 f2).2 =
        none ∧
      ∃ a, (HandFaceProximity.update {}
          (HandFaceProximity.update {}
            (HandFaceProximity.update {} ProxState.reset f1).1 f2).1 f3).2 = some a ∧
        a.variant = .normal) ∧
    (∀ (s : ProxState) (frames : List Results), s.wasNear = true →
      (∀ f ∈ frames, (nearData ({} : HandFaceProximityOptions) f).isSome) →
      ∀ e ∈ (HandFaceProximity.run {} s frames).2, e = none) ∧
    (∀ (s : ProxState) (frames : List Results), s.wasNear = false → 3 ≤ s.nearStreak →
      (∀ f ∈ frames, (nearData ({} : HandFaceProximityOptions) f).isSome) →
      ∀ e ∈ (HandFaceProximity.run {} s frames).2, ∃ a, e = some a) ∧
    (∀ (s : ProxState) (f : Results), nearData {} f = none →
      HandFaceProximity.update {} s f = (ProxState.reset, none)) := by
  refine ⟨?_, ?_, ?_, fun s f h => HandFaceProximity.update_not_near {} s f h⟩
  · intro f1 f2 f3 hnear
    obtain ⟨⟨nd1, fs1⟩, h1, -⟩ := hnear f1 (by simp)
    obtain ⟨⟨nd2, fs2⟩, h2, -⟩ := hnear f2 (by simp)
    obtain ⟨⟨nd3, fs3⟩, h3, hbig3⟩ := hnear f3 (by simp)
    rw [HandFaceProximity.update_near {} ProxState.reset f1 nd1 fs1 h1]
    simp only [ProxState.reset]
    refine ⟨by rw [if_pos (by norm_num)], ?_, ?_⟩
    · rw [HandFaceProximity.update_near {} _ f2 nd2 fs2 h2]
      simp only
      rw [if_pos (by norm_num)]
    · rw [HandFaceProximity.update_near {} _ f2 nd2 fs2 h2]
      simp only
      rw [HandFaceProximity.update_near {} _ f3 nd3 fs3 h3]
      simp only
      rw [if_neg (by norm_num)]
      rw [if_neg Bool.false_ne_true]
      refine ⟨_, rfl, ?_⟩
      simp only
      rw [if_neg (not_lt.mpr hbig3)]
  · intro s frames hack hnear
    induction frames generalizing s with
    | nil =>
      intro e he
      simp [HandFaceProximity.run] at he
    | cons f fs ih =>
      obtain ⟨⟨nd, fsz⟩, hf⟩ := Option.isSome_iff_exists.mp (hnear f (by simp))
      intro e he
      rw [HandFaceProximity.run] at he
      simp only at he
      rw [HandFaceProximity.update_near {} s f nd fsz hf, hack] at he
      simp only [if_true] at he
      rcases List.mem_cons.mp he with h | h
      · subst h
        split_ifs <;> rfl
      · exact ih ⟨s.nearStreak + 1, true⟩ rfl (fun g hg => hnear g (by simp [hg])) e h
  · intro s frames hlatch hstreak hnear
    induction frames generalizing s with
    | nil =>
      intro e he
      simp [HandFaceProximity.run] at he
    | cons f fs ih =>
      obtain ⟨⟨nd, fsz⟩, hf⟩ := Option.isSome_iff_exists.mp (hnear f (by simp))
      intro e he
      rw [HandFaceProximity.run] at he
      simp only at he
      rw [HandFaceProximity.update_near {} s f nd fsz hf, hlatch] at he
      rw [if_neg (by norm_num; omega)] at he
      simp only [Bool.false_eq_true, if_false] at he
      rcases List.mem_cons.mp he with h | h
      · exact ⟨_, h⟩
      · exact ih ⟨s.nearStreak + 1, false⟩ rfl (by simp; omega)
          (fun g hg => hnear g (by simp [hg])) e h

end PostureLens

namespace PostureLens

/-- The concrete test frame classifies "near": hand distance 0, face size
0.4, no depth data (gate passes by default). -/
theorem nearData_nearFrameA : nearData {} nearFrameA = some (0, 2/5) := by
  unfold nearData nearFrameA computeBoundingBox minDistanceToRect distancePointToRect meanZ optMin
  norm_num

/-- The empty frame does not classify "near" (guards fire). -/
theorem nearData_emptyFrame : nearData {} emptyFrame = none := by
  unfold nearData emptyFrame
  norm_num

/-- Witness for C1: three consecutive near frames from reset yield
none, none, then a normal event; a near frame in the acknowledged state
yields none; a near frame in the unacknowledged triggered state re-emits;
and the empty frame resets an advanced state. -/
theorem proximity_rising_edge_behavior_witness :
    (HandFaceProximity.update {} ProxState.reset nearFrameA).2 = none ∧
    (HandFaceProximity.update {}
      (HandFaceProximity.update {} ProxState.reset nearFrameA).1 nearFrameA).2 = none ∧
    (∃ a, (HandFaceProximity.update {}
        (HandFaceProximity.update {}
          (HandFaceProximity.update {} ProxState.reset nearFrameA).1 nearFrameA).1
        nearFrameA).2 = some a ∧ a.variant = .normal) ∧
    (HandFaceProximity.update {} (ProxState.mk 3 true) nearFrameA).2 = none ∧
    (∃ a, (HandFaceProximity.update {} (ProxState.mk 3 false) nearFrameA).2 = some a) ∧
    HandFaceProximity.update {} (ProxState.mk 5 false) emptyFrame = (ProxState.reset, none) := by
  have hmem : ∀ f ∈ [nearFrameA, nearFrameA, nearFrameA],
      ∃ p : ℝ × ℝ, nearData ({} : HandFaceProximityOptions) f = some p ∧ (0.08 : ℝ) ≤ p.2 := by
    intro f hf
    simp only [List.mem_cons, List.not_mem_nil, or_false] at hf
    rcases hf with h | h | h <;>
      (subst h; exact ⟨(0, 2/5), nearData_nearFrameA, by norm_num⟩)
  obtain ⟨hfirst, hsecond, hthird⟩ :=
    proximity_rising_edge_behavior.1 nearFrameA nearFrameA nearFrameA hmem
  have hsome : (nearData ({} : HandFaceProximityOptions) nearFrameA).isSome := by
    rw [nearData_nearFrameA]; rfl
  have hacked := proximity_rising_edge_behavior.2.1 (ProxState.mk 3 true) [nearFrameA] rfl
    (by intro f hf; simp only [List.mem_singleton] at hf; rw [hf]; exact hsome)
    (HandFaceProximity.update {} (ProxState.mk 3 true) nearFrameA).2
    (by simp [HandFaceProximity.run])
  have hreemit := proximity_rising_edge_behavior.2.2.1 (ProxState.mk 3 false) [nearFrameA] rfl
    (by norm_num)
    (by intro f hf; simp only [List.mem_singleton] at hf; rw [hf]; exact hsome)
    (HandFaceProximity.update {} (ProxState.mk 3 false) nearFrameA).2
    (by simp [HandFaceProximity.run])
  exact ⟨hfirst, hsecond, hthird, hacked, hreemit,
    proximity_rising_edge_behavior.2.2.2 (ProxState.mk 5 false) emptyFrame nearData_emptyFrame⟩

end PostureLens

namespace PostureLens

open scoped Classical

/-- C7: in `HandFaceProximity.update` a frame classifies "near" (increments
the streak) exactly when the minimum normalized distance from any present
hand landmark to the face bounding rectangle is at most the threshold AND
the depth gate passes, where the gate compares `|handZ − faceZ|` against the
depth threshold and passes unconditionally whenever the face mean depth or
the hand mean depth is unavailable. -/
theorem proximity_near_classification :
    ∀ (opts : HandFaceProximityOptions) (f : Results) (rect : Rect) (d : ℝ),
      f.faceLandmarks.length ≠ 0 →
      ¬(f.leftHandLandmarks.length = 0 ∧ f.rightHandLandmarks.length = 0) →
      computeBoundingBox f.faceLandmarks = some rect →
      0 < max (rect.maxX - rect.minX) (rect.maxY - rect.minY) →
      optMin
          (if f.leftHandLandmarks.length ≠ 0
            then minDistanceToRect f.leftHandLandmarks rect else none)
          (if f.rightHandLandmarks.length ≠ 0
            then minDistanceToRect f.rightHandLandmarks rect else none) = some d →
      (((nearData opts f).isSome ↔
        (d / max (rect.maxX - rect.minX) (rect.maxY - rect.minY) ≤
            opts.normalizedDistanceThreshold ∧
          ∀ fz hz, meanZ f.faceLandmarks = some fz →
            optMin (meanZ f.leftHandLandmarks) (meanZ f.rightHandLandmarks) = some hz →
            |hz - fz| ≤ opts.zDistanceThreshold)) ∧
      ((meanZ f.faceLandmarks = none ∨
          optMin (meanZ f.leftHandLandmarks) (meanZ f.rightHandLandmarks) = none) →
        ((nearData opts f).isSome ↔
          d / max (rect.maxX - rect.minX) (rect.maxY - rect.minY) ≤
            opts.normalizedDistanceThreshold)) ∧
      (∀ s : ProxState,
        ((HandFaceProximity.update opts s f).1.nearStreak = s.nearStreak + 1 ↔
          (nearData opts f).isSome))) := by
  intro opts f rect d hface hhands hbb hsize hd
  have hguard : ¬(f.faceLandmarks.length = 0 ∨
      (f.leftHandLandmarks.length = 0 ∧ f.rightHandLandmarks.length = 0)) := by
    push_neg
    exact ⟨hface, fun h h2 => hhands ⟨h, h2⟩⟩
  have hexpand : nearData opts f =
      if (d / max (rect.maxX - rect.minX) (rect.maxY - rect.minY) ≤
            opts.normalizedDistanceThreshold ∧
          match meanZ f.faceLandmarks,
              optMin (meanZ f.leftHandLandmarks) (meanZ f.rightHandLandmarks) with
          | none, _ => True
          | some _, none => True
          | some fz, some hz => |hz - fz| ≤ opts.zDistanceThreshold) then
        some (d / max (rect.maxX - rect.minX) (rect.maxY - rect.minY),
          max (rect.maxX - rect.minX) (rect.maxY - rect.minY))
      else none := by
    unfold nearData
    rw [if_neg hguard, hbb]
    dsimp only
    rw [if_neg (not_le.mpr hsize), hd]
  have hzok : (match meanZ f.faceLandmarks,
        optMin (meanZ f.leftHandLandmarks) (meanZ f.rightHandLandmarks) with
      | none, _ => True
      | some _, none => True
      | some fz, some hz => |hz - fz| ≤ opts.zDistanceThreshold) ↔
      (∀ fz hz, meanZ f.faceLandmarks = some fz →
        optMin (meanZ f.leftHandLandmarks) (meanZ f.rightHandLandmarks) = some hz →
        |hz - fz| ≤ opts.zDistanceThreshold) := by
    cases hF : meanZ f.faceLandmarks with
    | none => simp
    | some fz =>
      cases hH : optMin (meanZ f.leftHandLandmarks) (meanZ f.rightHandLandmarks) with
      | none => simp
      | some hz => simp
  refine ⟨?_, ?_, ?_⟩
  · rw [hexpand]
    constructor
    · intro h
      rw [Option.isSome_iff_exists] at h
      obtain ⟨p, hp⟩ := h
      by_cases hc : (d / max (rect.maxX - rect.minX) (rect.maxY - rect.minY) ≤
            opts.normalizedDistanceThreshold ∧
          match meanZ f.faceLandmarks,
              optMin (meanZ f.leftHandLandmarks) (meanZ f.rightHandLandmarks) with
          | none, _ => True
          | some _, none => True
          | some fz, some hz => |hz - fz| ≤ opts.zDistanceThreshold)
      · exact ⟨hc.1, hzok.mp hc.2⟩
      · rw [if_neg hc] at hp
        exact absurd hp (by simp)
    · intro h
      rw [if_pos ⟨h.1, hzok.mpr h.2⟩]
      rfl
  · intro hunavail
    rw [hexpand]
    have hgate : (match meanZ f.faceLandmarks,
        optMin (meanZ f.leftHandLandmarks) (meanZ f.rightHandLandmarks) with
      | none, _ => True
      | some _, none => True
      | some fz, some hz => |hz - fz| ≤ opts.zDistanceThreshold) := by
      rcases hunavail with h | h
      · rw [h]
        simp
      · rw [h]
        cases meanZ f.faceLandmarks <;> simp
    constructor
    · intro hs
      by_contra hnd
      rw [if_neg (fun hc => hnd hc.1)] at hs
      exact absurd hs (by simp)
    · intro hnd
      rw [if_pos ⟨hnd, hgate⟩]
      rfl
  · intro s
    cases hnd : nearData opts f with
    | none =>
      rw [HandFaceProximity.update_not_near opts s f hnd]
      simp [ProxState.reset]
    | some p =>
      rw [HandFaceProximity.update_near opts s f p.1 p.2 (by rw [hnd])]
      simp

end PostureLens

namespace PostureLens

/-- Witness for C7: on the concrete near frame (hand landmark inside the
face box, no depth data) the classification holds and `update` increments
the streak. -/
theorem proximity_near_classification_witness :
    (nearData ({} : HandFaceProximityOptions) nearFrameA).isSome = true ∧
    (HandFaceProximity.update {} ProxState.reset nearFrameA).1.nearStreak = 1 := by
  have hmz : meanZ nearFrameA.faceLandmarks = none := by
    unfold meanZ nearFrameA
    norm_num
  obtain ⟨-, hgate, hupd⟩ := proximity_near_classification {} nearFrameA
    { minX := 3/10, minY := 3/10, maxX := 6/10, maxY := 7/10 } 0
    (by unfold nearFrameA; norm_num)
    (by unfold nearFrameA; norm_num)
    (by
      unfold computeBoundingBox nearFrameA
      norm_num [min_def, max_def])
    (by norm_num [max_def])
    (by
      unfold minDistanceToRect distancePointToRect optMin nearFrameA
      norm_num)
  have hsome : (nearData ({} : HandFaceProximityOptions) nearFrameA).isSome = true :=
    (hgate (Or.inl hmz)).mpr (by norm_num [max_def])
  exact ⟨hsome, (hupd ProxState.reset).mpr hsome⟩

end PostureLens

namespace PostureLens

open scoped Classical

/-- A successful triangle extraction implies a nonempty pose list. -/
theorem extractTriangle_pose_nonempty {pose : List Landmark} {tri : Triangle}
    (h : extractTriangle pose = some tri) : pose.length ≠ 0 := by
  intro hlen
  rw [List.length_eq_zero] at hlen
  subst hlen
  simp [extractTriangle, LANDMARK_NOSE] at h

/-- `PostureDeviation.update` on a frame whose triangle extracts: the body
after the guards, with the state threaded explicitly. -/
theorem PostureDeviation.update_eq (opts : PostureDeviationOptions) (s : PostureState)
    (f : Results) (reference : ReferencePose) (tri : Triangle)
    (hext : extractTriangle f.poseLandmarks = some tri) :
    PostureDeviation.update opts s f reference =
      (let r1 := s.ratioAvg.add (calculateTriangleRatio tri.nose tri.leftShoulder tri.rightShoulder)
       let liveRatio := r1.2
       let h1 := s.headDeltaAvg.add
         (noseToShoulderMidpointDeltaY tri.nose tri.leftShoulder tri.rightShoulder)
       let liveHeadDelta := h1.2
       let z1 : MovingAverage × Option ℝ :=
         match calculateAverageZ tri with
         | some zi =>
           let za := s.zAvg.add zi
           (za.1, some za.2)
         | none => (s.zAvg, none)
       let liveZ := z1.2
       let refRatio := reference.ratio
       let ratioThreshold := refRatio * (1 - opts.ratioDropThreshold)
       let isBad : Prop := 0 < liveRatio ∧ liveRatio < ratioThreshold
       let refZ := calculateAverageZ
         { nose := reference.nose, leftShoulder := reference.leftShoulder
           rightShoulder := reference.rightShoulder }
       let refHeadDelta := noseToShoulderMidpointDeltaY
         reference.nose reference.leftShoulder reference.rightShoulder
       let headDeltaRatio := if 0 < refHeadDelta then liveHeadDelta / refHeadDelta else 1
       let headTiltConfidence := min 1 (headDeltaRatio / opts.headTiltLowConfidenceThreshold)
       let score := calculatePostureScore liveRatio refRatio liveZ refZ headTiltConfidence opts
       let s' : PostureState :=
         { ratioAvg := r1.1, headDeltaAvg := h1.1, zAvg := z1.1
           badStreak := s.badStreak, wasBad := s.wasBad, lastScore := some score }
       if isBad then
         let streak := s.badStreak + 1
         if streak < opts.framesToTrigger then ({ s' with badStreak := streak }, none)
         else if s.wasBad then ({ s' with badStreak := streak }, none)
         else
           ({ s' with badStreak := streak },
             some { variant := if headDeltaRatio < opts.headTiltLowConfidenceThreshold
                      then .lowConfidence else .normal
                    reason := "Posture"
                    liveRatio := liveRatio
                    refRatio := refRatio
                    postureScore := score.overall })
       else ({ s' with badStreak := 0, wasBad := false }, none)) := by
  unfold PostureDeviation.update
  rw [if_neg (by simpa using extractTriangle_pose_nonempty hext), hext]

end PostureLens

namespace PostureLens

/-- Feeding one more copy of a constant sample into a consistent all-constant
window returns that constant and preserves the all-constant invariant. -/
theorem MovingAverage.add_const (m : MovingAverage) (v : ℝ)
    (hw : 1 ≤ m.windowSize)
    (hlen : m.values.length ≤ m.windowSize)
    (hsum : m.sum = m.values.sum)
    (hvals : ∀ x ∈ m.values, x = v) :
    (m.add v).2 = v ∧
    (m.add v).1.windowSize = m.windowSize ∧
    (m.add v).1.values.length ≤ m.windowSize ∧
    (m.add v).1.sum = (m.add v).1.values.sum ∧
    (∀ x ∈ (m.add v).1.values, x = v) := by
  obtain ⟨hw', hs', hret, hfull, hsmall⟩ := MovingAverage.add_char m v hsum
  have hvals' : ∀ x ∈ (m.add v).1.values, x = v := by
    by_cases hcase : m.windowSize < m.values.length + 1
    · rw [hfull hcase]
      intro x hx
      have hx' : x ∈ m.values ++ [v] := List.mem_of_mem_tail hx
      rcases List.mem_append.mp hx' with h | h
      · exact hvals x h
      · simpa using h
    · rw [hsmall (by omega)]
      intro x hx
      rcases List.mem_append.mp hx with h | h
      · exact hvals x h
      · simpa using h
  have hlen' : (m.add v).1.values.length ≤ m.windowSize := by
    by_cases hcase : m.windowSize < m.values.length + 1
    · rw [hfull hcase]
      simp only [List.length_tail, List.length_append, List.length_singleton]
      omega
    · rw [hsmall (by omega)]
      simp only [List.length_append, List.length_singleton]
      omega
  have hne : (m.add v).1.values.length ≠ 0 := by
    by_cases hcase : m.windowSize < m.values.length + 1
    · rw [hfull hcase]
      simp only [List.length_tail, List.length_append, List.length_singleton]
      omega
    · rw [hsmall (by omega)]
      simp
  refine ⟨?_, hw', hlen', hs', hvals'⟩
  rw [hret, List.sum_eq_card_nsmul (m.add v).1.values v hvals', nsmul_eq_mul]
  rw [mul_comm, mul_div_assoc, div_self (by exact_mod_cast hne), mul_one]

end PostureLens


namespace PostureLens

open scoped Classical

/-- One steady bad step of the posture detector at default options: feeding a
frame whose instantaneous ratio is 0.9 × reference (a 10% drop) into a state
whose smoothers hold only copies of the steady values increments the streak,
preserves the latch, keeps the smoothers steady, returns no event below the
trigger count, and emits — variant normal exactly when the head-delta ratio
is at least 0.8 — at the trigger count while unlatched. -/
theorem posture_steady_step (reference : ReferencePose) (f : Results) (tri : Triangle)
    (hext : extractTriangle f.poseLandmarks = some tri)
    (hR : 0 < reference.ratio)
    (hratio : calculateTriangleRatio tri.nose tri.leftShoulder tri.rightShoulder =
      0.9 * reference.ratio)
    (s : PostureState)
    (hrw : s.ratioAvg.windowSize = 10) (hrl : s.ratioAvg.values.length ≤ 10)
    (hrs : s.ratioAvg.sum = s.ratioAvg.values.sum)
    (hrv : ∀ x ∈ s.ratioAvg.values, x = 0.9 * reference.ratio)
    (hhw : s.headDeltaAvg.windowSize = 10) (hhl : s.headDeltaAvg.values.length ≤ 10)
    (hhs : s.headDeltaAvg.sum = s.headDeltaAvg.values.sum)
    (hhv : ∀ x ∈ s.headDeltaAvg.values,
      x = noseToShoulderMidpointDeltaY tri.nose tri.leftShoulder tri.rightShoulder) :
    ((PostureDeviation.update {} s f reference).1.ratioAvg.windowSize = 10 ∧
      (PostureDeviation.update {} s f reference).1.ratioAvg.values.length ≤ 10 ∧
      (PostureDeviation.update {} s f reference).1.ratioAvg.sum =
        (PostureDeviation.update {} s f reference).1.ratioAvg.values.sum ∧
      (∀ x ∈ (PostureDeviation.update {} s f reference).1.ratioAvg.values,
        x = 0.9 * reference.ratio)) ∧
    ((PostureDeviation.update {} s f reference).1.headDeltaAvg.windowSize = 10 ∧
      (PostureDeviation.update {} s f reference).1.headDeltaAvg.values.length ≤ 10 ∧
      (PostureDeviation.update {} s f reference).1.headDeltaAvg.sum =
        (PostureDeviation.update {} s f reference).1.headDeltaAvg.values.sum ∧
      (∀ x ∈ (PostureDeviation.update {} s f reference).1.headDeltaAvg.values,
        x = noseToShoulderMidpointDeltaY tri.nose tri.leftShoulder tri.rightShoulder)) ∧
    (PostureDeviation.update {} s f reference).1.badStreak = s.badStreak + 1 ∧
    (PostureDeviation.update {} s f reference).1.wasBad = s.wasBad ∧
    (s.badStreak + 1 < 4 → (PostureDeviation.update {} s f reference).2 = none) ∧
    (¬s.badStreak + 1 < 4 → s.wasBad = false →
      ∃ a, (PostureDeviation.update {} s f reference).2 = some a ∧
        (a.variant = .normal ↔
          (0.8 : ℝ) ≤ (if 0 < noseToShoulderMidpointDeltaY reference.nose
                reference.leftShoulder reference.rightShoulder
              then noseToShoulderMidpointDeltaY tri.nose tri.leftShoulder tri.rightShoulder /
                noseToShoulderMidpointDeltaY reference.nose reference.leftShoulder
                  reference.rightShoulder
              else 1))) := by
  obtain ⟨hradd, hrw', hrl', hrs', hrv'⟩ := MovingAverage.add_const s.ratioAvg
    (0.9 * reference.ratio) (by omega) (by rw [hrw]; exact hrl) hrs hrv
  obtain ⟨hhadd, hhw', hhl', hhs', hhv'⟩ := MovingAverage.add_const s.headDeltaAvg
    (noseToShoulderMidpointDeltaY tri.nose tri.leftShoulder tri.rightShoulder)
    (by omega) (by rw [hhw]; exact hhl) hhs hhv
  rw [PostureDeviation.update_eq {} s f reference tri hext]
  dsimp only
  rw [hratio]
  have hbad : 0 < (s.ratioAvg.add (0.9 * reference.ratio)).2 ∧
      (s.ratioAvg.add (0.9 * reference.ratio)).2 <
        reference.ratio * (1 - ({} : PostureDeviationOptions).ratioDropThreshold) := by
    rw [hradd]
    constructor
    · linarith
    · show (0.9 : ℝ) * reference.ratio < reference.ratio * (1 - 0.07)
      linarith
  rw [if_pos hbad]
  have hinv1 : (s.ratioAvg.add (0.9 * reference.ratio)).1.windowSize = 10 ∧
      (s.ratioAvg.add (0.9 * reference.ratio)).1.values.length ≤ 10 ∧
      (s.ratioAvg.add (0.9 * reference.ratio)).1.sum =
        (s.ratioAvg.add (0.9 * reference.ratio)).1.values.sum ∧
      (∀ x ∈ (s.ratioAvg.add (0.9 * reference.ratio)).1.values,
        x = 0.9 * reference.ratio) :=
    ⟨by rw [hrw', hrw], by rw [← hrw]; exact hrl', hrs', hrv'⟩
  have hinv2 : (s.headDeltaAvg.add (noseToShoulderMidpointDeltaY tri.nose tri.leftShoulder
        tri.rightShoulder)).1.windowSize = 10 ∧
      (s.headDeltaAvg.add (noseToShoulderMidpointDeltaY tri.nose tri.leftShoulder
        tri.rightShoulder)).1.values.length ≤ 10 ∧
      (s.headDeltaAvg.add (noseToShoulderMidpointDeltaY tri.nose tri.leftShoulder
        tri.rightShoulder)).1.sum =
        (s.headDeltaAvg.add (noseToShoulderMidpointDeltaY tri.nose tri.leftShoulder
          tri.rightShoulder)).1.values.sum ∧
      (∀ x ∈ (s.headDeltaAvg.add (noseToShoulderMidpointDeltaY tri.nose tri.leftShoulder
          tri.rightShoulder)).1.values,
        x = noseToShoulderMidpointDeltaY tri.nose tri.leftShoulder tri.rightShoulder) :=
    ⟨by rw [hhw', hhw], by rw [← hhw]; exact hhl', hhs', hhv'⟩
  by_cases hstreak : s.badStreak + 1 < 4
  · rw [if_pos (show s.badStreak + 1 < ({} : PostureDeviationOptions).framesToTrigger
      from hstreak)]
    exact ⟨hinv1, hinv2, rfl, rfl, fun _ => rfl, fun h => absurd hstreak h⟩
  · rw [if_neg (show ¬s.badStreak + 1 < ({} : PostureDeviationOptions).framesToTrigger
      from hstreak)]
    by_cases hlatch : s.wasBad = true
    · rw [if_pos hlatch]
      refine ⟨hinv1, hinv2, rfl, rfl, fun h => absurd h hstreak, fun _ hfalse => ?_⟩
      rw [hlatch] at hfalse
      exact absurd hfalse (by simp)
    · rw [if_neg hlatch]
      refine ⟨hinv1, hinv2, rfl, rfl, fun h => absurd h hstreak, fun _ _ => ⟨_, rfl, ?_⟩⟩
      rw [hhadd]
      show ((if (if 0 < noseToShoulderMidpointDeltaY reference.nose reference.leftShoulder
            reference.rightShoulder
          then noseToShoulderMidpointDeltaY tri.nose tri.leftShoulder tri.rightShoulder /
            noseToShoulderMidpointDeltaY reference.nose reference.leftShoulder
              reference.rightShoulder
          else 1) < (0.8 : ℝ)
          then AlertVariant.lowConfidence else AlertVariant.normal) = AlertVariant.normal) ↔ _
      by_cases hc : (if 0 < noseToShoulderMidpointDeltaY reference.nose reference.leftShoulder
            reference.rightShoulder
          then noseToShoulderMidpointDeltaY tri.nose tri.leftShoulder tri.rightShoulder /
            noseToShoulderMidpointDeltaY reference.nose reference.leftShoulder
              reference.rightShoulder
          else 1) < (0.8 : ℝ)
      · rw [if_pos hc]
        constructor
        · intro hcontra
          exact absurd hcontra (by simp)
        · intro hge
          exact absurd hc (not_lt.mpr hge)
      · rw [if_neg hc]
        exact ⟨fun _ => not_lt.mp hc, fun _ => rfl⟩

end PostureLens

namespace PostureLens

open scoped Classical

/-- C2: for the posture detector with default options and a reference with
ratio R > 0: a frame is bad exactly when the smoothed live ratio is positive
and below R × (1 − 0.07); a steady smoothed ratio of 0.95 R never produces an
event; a steady ratio of 0.90 R from a fresh state produces no event on the
first three bad frames and exactly one on the fourth, with variant normal
exactly when the head-delta ratio versus reference is at least 0.8; after an
acknowledgment no further event is emitted while the condition persists; and
any not-bad frame resets the streak and the latch. -/
theorem posture_deviation_behavior :
    (∀ (reference : ReferencePose) (s : PostureState) (f : Results) (tri : Triangle),
      extractTriangle f.poseLandmarks = some tri →
      ((PostureDeviation.update {} s f reference).1.badStreak = s.badStreak + 1 ↔
        (0 < (s.ratioAvg.add
            (calculateTriangleRatio tri.nose tri.leftShoulder tri.rightShoulder)).2 ∧
          (s.ratioAvg.add
            (calculateTriangleRatio tri.nose tri.leftShoulder tri.rightShoulder)).2 <
            reference.ratio * (1 - 0.07)))) ∧
    (∀ (reference : ReferencePose) (s : PostureState) (f : Results) (tri : Triangle),
      extractTriangle f.poseLandmarks = some tri →
      0 < reference.ratio →
      (s.ratioAvg.add
        (calculateTriangleRatio tri.nose tri.leftShoulder tri.rightShoulder)).2 =
        0.95 * reference.ratio →
      (PostureDeviation.update {} s f reference).2 = none) ∧
    (∀ (reference : ReferencePose) (f : Results) (tri : Triangle),
      extractTriangle f.poseLandmarks = some tri →
      0 < reference.ratio →
      calculateTriangleRatio tri.nose tri.leftShoulder tri.rightShoulder =
        0.9 * reference.ratio →
      ∃ a, (PostureDeviation.run {} reference (PostureDeviation.init {})
          (List.replicate 4 f)).2 = [none, none, none, some a] ∧
        (a.variant = .normal ↔
          (0.8 : ℝ) ≤ (if 0 < noseToShoulderMidpointDeltaY reference.nose
                reference.leftShoulder reference.rightShoulder
              then noseToShoulderMidpointDeltaY tri.nose tri.leftShoulder tri.rightShoulder /
                noseToShoulderMidpointDeltaY reference.nose reference.leftShoulder
                  reference.rightShoulder
              else 1))) ∧
    (∀ (reference : ReferencePose) (s : PostureState) (f : Results) (tri : Triangle),
      extractTriangle f.poseLandmarks = some tri →
      s.wasBad = true →
      (0 < (s.ratioAvg.add
          (calculateTriangleRatio tri.nose tri.leftShoulder tri.rightShoulder)).2 ∧
        (s.ratioAvg.add
          (calculateTriangleRatio tri.nose tri.leftShoulder tri.rightShoulder)).2 <
          reference.ratio * (1 - 0.07)) →
      (PostureDeviation.update {} s f reference).2 = none ∧
      (PostureDeviation.update {} s f reference).1.wasBad = true) ∧
    (∀ (reference : ReferencePose) (s : PostureState) (f : Results) (tri : Triangle),
      extractTriangle f.poseLandmarks = some tri →
      ¬(0 < (s.ratioAvg.add
          (calculateTriangleRatio tri.nose tri.leftShoulder tri.rightShoulder)).2 ∧
        (s.ratioAvg.add
          (calculateTriangleRatio tri.nose tri.leftShoulder tri.rightShoulder)).2 <
          reference.ratio * (1 - 0.07)) →
      (PostureDeviation.update {} s f reference).2 = none ∧
      (PostureDeviation.update {} s f reference).1.badStreak = 0 ∧
      (PostureDeviation.update {} s f reference).1.wasBad = false) := by
  refine ⟨?_, ?_, ?_, ?_, ?_⟩
  · intro reference s f tri hext
    rw [PostureDeviation.update_eq {} s f reference tri hext]
    dsimp only
    by_cases hbad : 0 < (s.ratioAvg.add
          (calculateTriangleRatio tri.nose tri.leftShoulder tri.rightShoulder)).2 ∧
        (s.ratioAvg.add
          (calculateTriangleRatio tri.nose tri.leftShoulder tri.rightShoulder)).2 <
          reference.ratio * (1 - 0.07)
    · rw [if_pos hbad]
      split_ifs <;> simp [hbad]
    · rw [if_neg hbad]
      simp only [iff_false_intro hbad]
      simp
  · intro reference s f tri hext hR hlive
    rw [PostureDeviation.update_eq {} s f reference tri hext]
    dsimp only
    rw [if_neg (by
      rw [hlive]
      rintro ⟨-, hlt⟩
      have : reference.ratio * (1 - (0.07 : ℝ)) = 0.93 * reference.ratio := by ring
      rw [this] at hlt
      linarith)]
  · intro reference f tri hext hR hratio
    have hinit : ∀ w : ℕ, (MovingAverage.mk w [] 0).windowSize = w ∧
        (MovingAverage.mk w [] 0).values.length ≤ w ∧
        (MovingAverage.mk w [] 0).sum = (MovingAverage.mk w [] 0).values.sum ∧
        True := by
      intro w
      refine ⟨rfl, by simp, by simp, trivial⟩
    set s0 := PostureDeviation.init ({} : PostureDeviationOptions) with hs0
    obtain ⟨hr1, hh1, hb1, hw1, ho1, -⟩ := posture_steady_step reference f tri hext hR hratio
      s0 rfl (by simp [hs0, PostureDeviation.init]) (by simp [hs0, PostureDeviation.init])
      (by simp [hs0, PostureDeviation.init]) rfl (by simp [hs0, PostureDeviation.init])
      (by simp [hs0, PostureDeviation.init]) (by simp [hs0, PostureDeviation.init])
    set s1 := (PostureDeviation.update {} s0 f reference).1 with hs1
    obtain ⟨hr2, hh2, hb2, hw2, ho2, -⟩ := posture_steady_step reference f tri hext hR hratio
      s1 hr1.1 hr1.2.1 hr1.2.2.1 hr1.2.2.2 hh1.1 hh1.2.1 hh1.2.2.1 hh1.2.2.2
    set s2 := (PostureDeviation.update {} s1 f reference).1 with hs2
    obtain ⟨hr3, hh3, hb3, hw3, ho3, -⟩ := posture_steady_step reference f tri hext hR hratio
      s2 hr2.1 hr2.2.1 hr2.2.2.1 hr2.2.2.2 hh2.1 hh2.2.1 hh2.2.2.1 hh2.2.2.2
    set s3 := (PostureDeviation.update {} s2 f reference).1 with hs3
    obtain ⟨-, -, -, -, -, ho4⟩ := posture_steady_step reference f tri hext hR hratio
      s3 hr3.1 hr3.2.1 hr3.2.2.1 hr3.2.2.2 hh3.1 hh3.2.1 hh3.2.2.1 hh3.2.2.2
    have hb0 : s0.badStreak = 0 := rfl
    have hw0 : s0.wasBad = false := rfl
    have hstreak3 : s3.badStreak = 3 := by
      rw [hs3, hb3, hs2, hb2, hs1, hb1, hb0]
    have hlatch3 : s3.wasBad = false := by
      rw [hs3, hw3, hs2, hw2, hs1, hw1, hw0]
    obtain ⟨a, ha, hav⟩ := ho4 (by rw [hstreak3]; norm_num) hlatch3
    refine ⟨a, ?_, hav⟩
    have hrun : (PostureDeviation.run {} reference s0 (List.replicate 4 f)).2 =
        [(PostureDeviation.update {} s0 f reference).2,
          (PostureDeviation.update {} s1 f reference).2,
          (PostureDeviation.update {} s2 f reference).2,
          (PostureDeviation.update {} s3 f reference).2] := by
      show (PostureDeviation.run {} reference s0 [f, f, f, f]).2 = _
      rw [hs3, hs2, hs1]
      simp [PostureDeviation.run]
    rw [hrun, ho1 (by rw [hb0]; norm_num), ho2 (by rw [hs1, hb1, hb0]; norm_num),
      ho3 (by rw [hs2, hb2, hs1, hb1, hb0]; norm_num), ha]
  · intro reference s f tri hext hlatch hbad
    rw [PostureDeviation.update_eq {} s f reference tri hext]
    dsimp only
    rw [if_pos hbad]
    by_cases h1 : s.badStreak + 1 < 4
    · rw [if_pos (show s.badStreak + 1 < ({} : PostureDeviationOptions).framesToTrigger from h1)]
      exact ⟨rfl, hlatch⟩
    · rw [if_neg (show ¬s.badStreak + 1 < ({} : PostureDeviationOptions).framesToTrigger from h1),
        if_pos hlatch]
      exact ⟨rfl, hlatch⟩
  · intro reference s f tri hext hbad
    rw [PostureDeviation.update_eq {} s f reference tri hext]
    dsimp only
    rw [if_neg hbad]
    exact ⟨rfl, rfl, rfl⟩

end PostureLens

namespace PostureLens

/-- The test frame's triangle ratio is 0.9 × the test reference's ratio. -/
theorem postureFrameA_ratio :
    calculateTriangleRatio { x := 1/2, y := 1/5 } { x := 11/40, y := 7/10 }
      { x := 29/40, y := 7/10 } = 0.9 * postureRefA.ratio := by
  have hmid : midpointToNose { x := 1/2, y := 1/5 } { x := 11/40, y := 7/10 }
      { x := 29/40, y := 7/10 } = 1/2 := by
    unfold midpointToNose
    dsimp only
    rw [show (((1:ℝ)/2 - ((11/40 : ℝ) + 29/40) / 2) ^ 2 +
        ((1/5 : ℝ) - ((7/10 : ℝ) + 7/10) / 2) ^ 2) = ((1:ℝ)/2) ^ 2 by norm_num]
    exact Real.sqrt_sq (by norm_num)
  have hw : shoulderWidth { x := 11/40, y := 7/10 } { x := 29/40, y := 7/10 } = 9/20 := by
    unfold shoulderWidth
    dsimp only
    rw [show (((29/40 : ℝ) - 11/40) ^ 2 + ((7/10 : ℝ) - 7/10) ^ 2) = ((9:ℝ)/20) ^ 2 by norm_num]
    exact Real.sqrt_sq (by norm_num)
  unfold calculateTriangleRatio
  rw [hmid, hw, if_neg (by norm_num)]
  show (9:ℝ)/20 / (1/2) = 0.9 * postureRefA.ratio
  unfold postureRefA
  norm_num

/-- The 0.95 test frame's triangle ratio is 0.95 × the reference ratio. -/
theorem postureFrameB_ratio :
    calculateTriangleRatio { x := 1/2, y := 1/5 } { x := 21/80, y := 7/10 }
      { x := 59/80, y := 7/10 } = 0.95 * postureRefA.ratio := by
  have hmid : midpointToNose { x := 1/2, y := 1/5 } { x := 21/80, y := 7/10 }
      { x := 59/80, y := 7/10 } = 1/2 := by
    unfold midpointToNose
    dsimp only
    rw [show (((1:ℝ)/2 - ((21/80 : ℝ) + 59/80) / 2) ^ 2 +
        ((1/5 : ℝ) - ((7/10 : ℝ) + 7/10) / 2) ^ 2) = ((1:ℝ)/2) ^ 2 by norm_num]
    exact Real.sqrt_sq (by norm_num)
  have hw : shoulderWidth { x := 21/80, y := 7/10 } { x := 59/80, y := 7/10 } = 19/40 := by
    unfold shoulderWidth
    dsimp only
    rw [show (((59/80 : ℝ) - 21/80) ^ 2 + ((7/10 : ℝ) - 7/10) ^ 2) = ((19:ℝ)/40) ^ 2 by norm_num]
    exact Real.sqrt_sq (by norm_num)
  unfold calculateTriangleRatio
  rw [hmid, hw, if_neg (by norm_num)]
  show (19:ℝ)/40 / (1/2) = 0.95 * postureRefA.ratio
  unfold postureRefA
  norm_num

/-- Witness for C2: four steady 10%-drop frames against the concrete
reference produce none, none, none and then one normal event; one steady
5%-drop frame from a fresh state produces no event. -/
theorem posture_deviation_behavior_witness :
    (∃ a, (PostureDeviation.run {} postureRefA (PostureDeviation.init {})
        (List.replicate 4 postureFrameA)).2 = [none, none, none, some a] ∧
      a.variant = .normal) ∧
    (PostureDeviation.update {} (PostureDeviation.init {}) postureFrameB postureRefA).2 =
      none := by
  constructor
  · obtain ⟨a, hrun, hvar⟩ := posture_deviation_behavior.2.2.1 postureRefA postureFrameA
      { nose := { x := 1/2, y := 1/5 }, leftShoulder := { x := 11/40, y := 7/10 }
        rightShoulder := { x := 29/40, y := 7/10 } }
      rfl (by unfold postureRefA; norm_num) postureFrameA_ratio
    refine ⟨a, hrun, hvar.mpr ?_⟩
    have href : noseToShoulderMidpointDeltaY postureRefA.nose postureRefA.leftShoulder
        postureRefA.rightShoulder = 1/2 := by
      unfold noseToShoulderMidpointDeltaY postureRefA
      norm_num
    have hlive : noseToShoulderMidpointDeltaY { x := 1/2, y := 1/5 }
        { x := 11/40, y := 7/10 } { x := 29/40, y := 7/10 } = 1/2 := by
      unfold noseToShoulderMidpointDeltaY
      norm_num
    rw [href, hlive, if_pos (by norm_num)]
    norm_num
  · exact posture_deviation_behavior.2.1 postureRefA (PostureDeviation.init {}) postureFrameB
      { nose := { x := 1/2, y := 1/5 }, leftShoulder := { x := 21/80, y := 7/10 }
        rightShoulder := { x := 59/80, y := 7/10 } }
      rfl (by unfold postureRefA; norm_num)
      (by
        rw [postureFrameB_ratio]
        show ((PostureDeviation.init ({} : PostureDeviationOptions)).ratioAvg.add
          (0.95 * postureRefA.ratio)).2 = 0.95 * postureRefA.ratio
        unfold PostureDeviation.init MovingAverage.add
        norm_num)

end PostureLens

namespace PostureLens

/-- C4: on every processed frame outside a calibration session the
orchestration updates the proximity detector, updates the posture detector
exactly when a reference exists, and dispatches at most one alert with
proximity strictly prioritized: a proximity event is dispatched and, on
successful dispatch, only the proximity detector is acknowledged; only when
no proximity event was produced is a posture event dispatched and only the
posture detector acknowledged; with no event, the engine is untouched and no
effect is produced. -/
theorem orchestration_priority_and_ack :
    ∀ (proxOpts : HandFaceProximityOptions) (postOpts : PostureDeviationOptions)
      (reference : Option ReferencePose) (st : OrchestrationState) (now : ℤ) (f : Results),
      ((processFrame proxOpts postOpts none st now f).1.post = st.post) ∧
      (∀ ref, reference = some ref →
        (processFrame proxOpts postOpts reference st now f).1.post =
          (PostureDeviation.update postOpts st.post f ref).1 ∨
        (processFrame proxOpts postOpts reference st now f).1.post =
          ((PostureDeviation.update postOpts st.post f ref).1).acknowledge) ∧
      (∀ ev, (HandFaceProximity.update proxOpts st.prox f).2 = some ev →
        (processFrame proxOpts postOpts reference st now f).2.1 = some (.proximity ev) ∧
        (processFrame proxOpts postOpts reference st now f).1.engine =
          (st.engine.trigger now ev.variant ev.reason).1 ∧
        (processFrame proxOpts postOpts reference st now f).2.2 =
          (st.engine.trigger now ev.variant ev.reason).2.2 ∧
        ((st.engine.trigger now ev.variant ev.reason).2.1 = true →
          (processFrame proxOpts postOpts reference st now f).1.prox =
            ((HandFaceProximity.update proxOpts st.prox f).1).acknowledge) ∧
        ((st.engine.trigger now ev.variant ev.reason).2.1 = false →
          (processFrame proxOpts postOpts reference st now f).1.prox =
            (HandFaceProximity.update proxOpts st.prox f).1) ∧
        (∀ ref, reference = some ref →
          (processFrame proxOpts postOpts reference st now f).1.post =
            (PostureDeviation.update postOpts st.post f ref).1)) ∧
      (∀ ref ev, (HandFaceProximity.update proxOpts st.prox f).2 = none →
        reference = some ref →
        (PostureDeviation.update postOpts st.post f ref).2 = some ev →
        (processFrame proxOpts postOpts reference st now f).2.1 = some (.posture ev) ∧
        (processFrame proxOpts postOpts reference st now f).1.engine =
          (st.engine.trigger now ev.variant ev.reason).1 ∧
        (processFrame proxOpts postOpts reference st now f).2.2 =
          (st.engine.trigger now ev.variant ev.reason).2.2 ∧
        (processFrame proxOpts postOpts reference st now f).1.prox =
          (HandFaceProximity.update proxOpts st.prox f).1 ∧
        ((st.engine.trigger now ev.variant ev.reason).2.1 = true →
          (processFrame proxOpts postOpts reference st now f).1.post =
            ((PostureDeviation.update postOpts st.post f ref).1).acknowledge)) ∧
      ((HandFaceProximity.update proxOpts st.prox f).2 = none →
        (∀ ref, reference = some ref →
          (PostureDeviation.update postOpts st.post f ref).2 = none) →
        (processFrame proxOpts postOpts reference st now f).2.1 = none ∧
        (processFrame proxOpts postOpts reference st now f).2.2 = [] ∧
        (processFrame proxOpts postOpts reference st now f).1.engine = st.engine ∧
        (processFrame proxOpts postOpts reference st now f).1.prox =
          (HandFaceProximity.update proxOpts st.prox f).1) := by
  intro proxOpts postOpts reference st now f
  refine ⟨?_, ?_, ?_, ?_, ?_⟩
  · unfold processFrame
    dsimp only
    cases hprox : (HandFaceProximity.update proxOpts st.prox f).2 with
    | some ev => rfl
    | none => rfl
  · intro ref href
    subst href
    unfold processFrame
    dsimp only
    cases hprox : (HandFaceProximity.update proxOpts st.prox f).2 with
    | some ev => exact Or.inl rfl
    | none =>
      dsimp only
      cases hpost : (PostureDeviation.update postOpts st.post f ref).2 with
      | some ev =>
        dsimp only
        by_cases hfired : (st.engine.trigger now ev.variant ev.reason).2.1 = true
        · rw [if_pos hfired]
          exact Or.inr rfl
        · rw [if_neg hfired]
          exact Or.inl rfl
      | none => exact Or.inl rfl
  · intro ev hev
    unfold processFrame
    dsimp only
    rw [hev]
    dsimp only
    refine ⟨rfl, rfl, rfl, ?_, ?_, ?_⟩
    · intro hfired
      rw [if_pos hfired]
    · intro hfired
      rw [if_neg (by rw [hfired]; exact Bool.false_ne_true)]
    · intro ref href
      subst href
      rfl
  · intro ref ev hprox href hpost
    subst href
    unfold processFrame
    dsimp only
    rw [hprox]
    dsimp only
    rw [hpost]
    dsimp only
    refine ⟨rfl, rfl, rfl, rfl, ?_⟩
    intro hfired
    rw [if_pos hfired]
  · intro hprox hpost
    unfold processFrame
    dsimp only
    rw [hprox]
    dsimp only
    cases href : reference with
    | none => exact ⟨rfl, rfl, rfl, rfl⟩
    | some ref =>
      dsimp only
      rw [hpost ref href]
      exact ⟨rfl, rfl, rfl, rfl⟩

end PostureLens

namespace PostureLens

/-- Witness for C4: with no stored reference, a third consecutive near frame
produces a proximity event that is dispatched through a fresh production
engine (cooldown passed), the proximity detector alone is acknowledged, the
posture state is untouched, and all three normal-alert effects fire; the
empty frame dispatches nothing and leaves the engine untouched. -/
theorem orchestration_priority_and_ack_witness :
    ((processFrame {} {} none
        { prox := ProxState.mk 2 false, post := PostureDeviation.init {}
          engine := AlertEngine.make {} "posturelens.app" }
        100000 nearFrameA).2.1 =
      some (.proximity { variant := .normal, reason := "Hands near face"
                         normalizedDistance := 0 })) ∧
    ((processFrame {} {} none
        { prox := ProxState.mk 2 false, post := PostureDeviation.init {}
          engine := AlertEngine.make {} "posturelens.app" }
        100000 nearFrameA).1.prox = ProxState.mk 3 true) ∧
    ((processFrame {} {} none
        { prox := ProxState.mk 2 false, post := PostureDeviation.init {}
          engine := AlertEngine.make {} "posturelens.app" }
        100000 nearFrameA).1.post = PostureDeviation.init {}) ∧
    ((processFrame {} {} none
        { prox := ProxState.mk 2 false, post := PostureDeviation.init {}
          engine := AlertEngine.make {} "posturelens.app" }
        100000 nearFrameA).2.2 =
      [.flash .red, .toast "Hands near face", .beep]) ∧
    ((processFrame {} {} none
        { prox := ProxState.mk 0 false, post := PostureDeviation.init {}
          engine := AlertEngine.make {} "posturelens.app" }
        100000 emptyFrame).2.1 = none) ∧
    ((processFrame {} {} none
        { prox := ProxState.mk 0 false, post := PostureDeviation.init {}
          engine := AlertEngine.make {} "posturelens.app" }
        100000 emptyFrame).2.2 = []) ∧
    ((processFrame {} {} none
        { prox := ProxState.mk 0 false, post := PostureDeviation.init {}
          engine := AlertEngine.make {} "posturelens.app" }
        100000 emptyFrame).1.engine = AlertEngine.make {} "posturelens.app") := by
  have hupd := HandFaceProximity.update_near {} (ProxState.mk 2 false) nearFrameA 0 (2/5)
    nearData_nearFrameA
  have hev : (HandFaceProximity.update {} (ProxState.mk 2 false) nearFrameA).2 =
      some { variant := .normal, reason := "Hands near face", normalizedDistance := 0 } := by
    rw [hupd]
    norm_num
  have hst : (HandFaceProximity.update {} (ProxState.mk 2 false) nearFrameA).1 =
      ProxState.mk 3 false := by
    rw [hupd]
  have htrig : (AlertEngine.make {} "posturelens.app").trigger 100000 .normal
      "Hands near face" =
      ({ hostname := "posturelens.app", cooldownMs := 60000, flashMs := 650
         lastAlertAtMs := 100000 }, true,
        [.flash .red, .toast "Hands near face", .beep]) := by
    decide
  obtain ⟨hdisp, heng, heff, hack, -, -⟩ := orchestration_priority_and_ack {} {} none
    { prox := ProxState.mk 2 false, post := PostureDeviation.init {}
      engine := AlertEngine.make {} "posturelens.app" }
    100000 nearFrameA
    |>.2.2.1 { variant := .normal, reason := "Hands near face", normalizedDistance := 0 } hev
  have hproxnone : (HandFaceProximity.update ({} : HandFaceProximityOptions)
      (ProxState.mk 0 false) emptyFrame).2 = none := by
    rw [HandFaceProximity.update_not_near {} (ProxState.mk 0 false) emptyFrame
      nearData_emptyFrame]
  obtain ⟨hdisp2, heff2, heng2, -⟩ := orchestration_priority_and_ack {} {} none
    { prox := ProxState.mk 0 false, post := PostureDeviation.init {}
      engine := AlertEngine.make {} "posturelens.app" }
    100000 emptyFrame
    |>.2.2.2.2 hproxnone (fun ref h => by simp at h)
  refine ⟨hdisp, ?_, ?_, ?_, hdisp2, heff2, heng2⟩
  · rw [hack (by rw [htrig])]
    rw [hst]
    rfl
  · exact (orchestration_priority_and_ack {} {} none
      { prox := ProxState.mk 2 false, post := PostureDeviation.init {}
        engine := AlertEngine.make {} "posturelens.app" }
      100000 nearFrameA).1
  · rw [heff, htrig]

end PostureLens
